import Mathlib

/-!
RGB LED driver (cy_rgb_led.c): shallow embedding and verified properties.

The driver keeps four module-level scalars (colour, brightness, on/off flag,
polarity) and talks to a hardware abstraction layer (HAL).  Every driver entry
point is embedded as a function from the driver state to the new state together
with the list of HAL calls it issues, in program order.

Fixed-width objects are natural numbers; an assignment to a `uint8_t` or
`uint32_t` object keeps the low 8 or 32 bits (`u8`, `u32`), and the unsigned
subtraction of the active-low branch is taken modulo `2^32` (`sub32`).

The constants of `cy_rgb_led.h` and the platform success code are parameters
(`Header`): the source file only uses their names.
-/

namespace RgbLed

/-! ## Machine integers -/

/-- Conversion to `uint8_t`: the low eight bits. -/
def u8 (n : Nat) : Nat := n % 2 ^ 8

/-- Conversion to `uint32_t`: the low thirty-two bits. -/
def u32 (n : Nat) : Nat := n % 2 ^ 32

/-- Subtraction `a - b` of two `uint32_t` values, with wrap-around. -/
def sub32 (a b : Nat) : Nat := (a + (2 ^ 32 - b % 2 ^ 32)) % 2 ^ 32

/-! ## Constants -/

/-- Constants the source takes from `cy_rgb_led.h` and from the platform result
header.  They are parameters of the embedding. -/
structure Header where
  CY_RGB_LED_MAX_BRIGHTNESS : Nat
  CY_RGB_LED_RED_POS : Nat
  CY_RGB_LED_GREEN_POS : Nat
  CY_RGB_LED_BLUE_POS : Nat
  CY_RGB_LED_COLOR_OFF : Nat
  CY_RGB_LED_ACTIVE_LOW : Bool
  CY_RSLT_SUCCESS : Nat
deriving DecidableEq, Repr

/-- PWM period in microseconds (`#define CY_RGB_LED_PWM_PERIOD_US (255u)`). -/
def CY_RGB_LED_PWM_PERIOD_US : Nat := 255

/-- The flag value for "LED off" (`#define CY_RGB_LED_OFF (0u)`), as a `bool`. -/
def CY_RGB_LED_OFF : Bool := false

/-- The flag value for "LED on" (`#define CY_RGB_LED_ON (1u)`), as a `bool`. -/
def CY_RGB_LED_ON : Bool := true

/-- PWM clock in Hz (`#define CY_RGB_LED_TCPWM_CLK_HZ (1000000u)`). -/
def CY_RGB_LED_TCPWM_CLK_HZ : Nat := 1000000

/-! ## HAL surface -/

/-- The three PWM objects `pwm_red_obj`, `pwm_green_obj`, `pwm_blue_obj`. -/
inductive Channel where
  | red
  | green
  | blue
deriving DecidableEq, Repr

/-- Clock block requested from `cyhal_clock_allocate`. -/
inductive cyhal_clock_block_t where
  | CYHAL_CLOCK_BLOCK_PERIPHERAL_16BIT
deriving DecidableEq, Repr

/-- Callback modes of the power-management facility named by the source. -/
inductive cyhal_syspm_callback_mode_t where
  | CYHAL_SYSPM_CHECK_READY
  | CYHAL_SYSPM_CHECK_FAIL
  | CYHAL_SYSPM_BEFORE_TRANSITION
  | CYHAL_SYSPM_AFTER_TRANSITION
deriving DecidableEq, Repr

/-- One call into the HAL, with the arguments the driver passes. -/
inductive HalCall where
  | clock_allocate (block : cyhal_clock_block_t)
  | clock_set_frequency (hz : Nat)
  | clock_set_enabled (enabled : Bool) (wait_for_lock : Bool)
  | clock_free
  | pwm_init (ch : Channel) (pin : Nat)
  | pwm_free (ch : Channel)
  | pwm_start (ch : Channel)
  | pwm_stop (ch : Channel)
  | pwm_set_period (ch : Channel) (period_us : Nat) (pulse_width_us : Nat)
  | syspm_register_callback
  | syspm_unregister_callback
deriving DecidableEq, Repr

/-- Result codes the HAL hands back for the six fallible steps of
`cy_rgb_led_init`, each of which runs at most once per call. -/
structure HalResults where
  clock_allocate : Nat
  clock_set_frequency : Nat
  clock_set_enabled : Nat
  pwm_init_red : Nat
  pwm_init_green : Nat
  pwm_init_blue : Nat
deriving DecidableEq, Repr

/-! ## Driver state -/

/-- The module-level variables `led_color`, `led_brightness`, `rgb_led_state`
and `rgb_led_active_logic`. -/
structure Driver where
  led_color : Nat
  led_brightness : Nat
  rgb_led_state : Bool
  rgb_led_active_logic : Bool
deriving DecidableEq, Repr

/-- State given by the static initialisers: colour `CY_RGB_LED_COLOR_OFF`,
brightness zero-initialised, flag `CY_RGB_LED_OFF`, polarity
`CY_RGB_LED_ACTIVE_LOW`. -/
def Driver.initial (h : Header) : Driver :=
  { led_color := u32 h.CY_RGB_LED_COLOR_OFF
    led_brightness := 0
    rgb_led_state := CY_RGB_LED_OFF
    rgb_led_active_logic := h.CY_RGB_LED_ACTIVE_LOW }

/-! ## Driver functions -/

/-- Embedding of `cy_rgb_led_register_lp_cb`. -/
def cy_rgb_led_register_lp_cb (h : Header) : Nat × List HalCall :=
  (h.CY_RSLT_SUCCESS, [HalCall.syspm_register_callback])

/-- Embedding of `cy_rgb_led_lp_readiness`: return value, driver state after
the call and HAL calls made. -/
def cy_rgb_led_lp_readiness (s : Driver) (_state : Nat)
    (mode : cyhal_syspm_callback_mode_t) (_callback_arg : Nat) :
    Bool × Driver × List HalCall :=
  let returnValue := false
  let returnValue :=
    if mode = cyhal_syspm_callback_mode_t.CYHAL_SYSPM_CHECK_READY
        ∧ s.rgb_led_state = CY_RGB_LED_OFF then true else returnValue
  (returnValue, s, [])

/-- Local variables of `cy_rgb_led_init` and the HAL calls issued so far. -/
structure InitLocals where
  result : Nat
  green_success : Bool
  blue_success : Bool
  red_success : Bool
  clock_success : Bool
  calls : List HalCall
deriving DecidableEq, Repr

/-- Embedding of `cy_rgb_led_init`: result code, driver state and HAL calls. -/
def cy_rgb_led_init (h : Header) (hal : HalResults) (s : Driver)
    (pin_red pin_green pin_blue : Nat) (led_active_logic : Bool) :
    Nat × Driver × List HalCall :=
  let l0 : InitLocals :=
    { result := h.CY_RSLT_SUCCESS, green_success := false, blue_success := false,
      red_success := false, clock_success := false, calls := [] }
  let s := { s with rgb_led_active_logic := led_active_logic }
  let l1 : InitLocals :=
    { l0 with
      result := hal.clock_allocate
      calls := l0.calls ++
        [HalCall.clock_allocate cyhal_clock_block_t.CYHAL_CLOCK_BLOCK_PERIPHERAL_16BIT] }
  let l2 : InitLocals :=
    if l1.result = h.CY_RSLT_SUCCESS then
      { l1 with
        clock_success := true
        result := hal.clock_set_frequency
        calls := l1.calls ++ [HalCall.clock_set_frequency CY_RGB_LED_TCPWM_CLK_HZ] }
    else l1
  let l3 : InitLocals :=
    if l2.result = h.CY_RSLT_SUCCESS then
      { l2 with
        result := hal.clock_set_enabled
        calls := l2.calls ++ [HalCall.clock_set_enabled true true] }
    else l2
  let l4 : InitLocals :=
    if l3.result = h.CY_RSLT_SUCCESS then
      { l3 with
        result := hal.pwm_init_red
        calls := l3.calls ++ [HalCall.pwm_init Channel.red pin_red] }
    else l3
  let l5 : InitLocals :=
    if l4.result = h.CY_RSLT_SUCCESS then
      { l4 with
        red_success := true
        result := hal.pwm_init_green
        calls := l4.calls ++ [HalCall.pwm_init Channel.green pin_green] }
    else l4
  let l6 : InitLocals :=
    if l5.result = h.CY_RSLT_SUCCESS then
      { l5 with
        green_success := true
        result := hal.pwm_init_blue
        calls := l5.calls ++ [HalCall.pwm_init Channel.blue pin_blue] }
    else l5
  let l7 : InitLocals :=
    if l6.result = h.CY_RSLT_SUCCESS then
      { l6 with
        blue_success := true
        result := (cy_rgb_led_register_lp_cb h).1
        calls := l6.calls ++ (cy_rgb_led_register_lp_cb h).2 }
    else l6
  let cleanup : List HalCall :=
    if l7.result ≠ h.CY_RSLT_SUCCESS then
      (if l7.red_success then [HalCall.pwm_free Channel.red] else []) ++
      (if l7.green_success then [HalCall.pwm_free Channel.green] else []) ++
      (if l7.blue_success then [HalCall.pwm_free Channel.blue] else []) ++
      (if l7.clock_success then
        [HalCall.clock_set_enabled false true, HalCall.clock_free] else [])
    else []
  (l7.result, s, l7.calls ++ cleanup)

/-- Embedding of `cy_rgb_led_deinit`. -/
def cy_rgb_led_deinit (s : Driver) : Driver × List HalCall :=
  (s, [HalCall.pwm_free Channel.red, HalCall.pwm_free Channel.green,
       HalCall.pwm_free Channel.blue, HalCall.clock_set_enabled false true,
       HalCall.clock_free, HalCall.syspm_unregister_callback])

/-- Embedding of `cy_rgb_led_set_color`. -/
def cy_rgb_led_set_color (h : Header) (s : Driver) (color : Nat) :
    Driver × List HalCall :=
  let s := { s with led_color := u32 color }
  let pwm_red_pulse_width :=
    u32 ((s.led_brightness * u8 (s.led_color >>> h.CY_RGB_LED_RED_POS))
          / h.CY_RGB_LED_MAX_BRIGHTNESS)
  let pwm_green_pulse_width :=
    u32 ((s.led_brightness * u8 (s.led_color >>> h.CY_RGB_LED_GREEN_POS))
          / h.CY_RGB_LED_MAX_BRIGHTNESS)
  let pwm_blue_pulse_width :=
    u32 ((s.led_brightness * u8 (s.led_color >>> h.CY_RGB_LED_BLUE_POS))
          / h.CY_RGB_LED_MAX_BRIGHTNESS)
  let low := s.rgb_led_active_logic = h.CY_RGB_LED_ACTIVE_LOW
  let pwm_red_pulse_width :=
    if low then sub32 CY_RGB_LED_PWM_PERIOD_US pwm_red_pulse_width
    else pwm_red_pulse_width
  let pwm_green_pulse_width :=
    if low then sub32 CY_RGB_LED_PWM_PERIOD_US pwm_green_pulse_width
    else pwm_green_pulse_width
  let pwm_blue_pulse_width :=
    if low then sub32 CY_RGB_LED_PWM_PERIOD_US pwm_blue_pulse_width
    else pwm_blue_pulse_width
  (s, [HalCall.pwm_set_period Channel.red CY_RGB_LED_PWM_PERIOD_US pwm_red_pulse_width,
       HalCall.pwm_set_period Channel.green CY_RGB_LED_PWM_PERIOD_US pwm_green_pulse_width,
       HalCall.pwm_set_period Channel.blue CY_RGB_LED_PWM_PERIOD_US pwm_blue_pulse_width])

/-- Embedding of `cy_rgb_led_set_brightness`. -/
def cy_rgb_led_set_brightness (h : Header) (s : Driver) (brightness : Nat) :
    Driver × List HalCall :=
  let s :=
    { s with
      led_brightness :=
        u8 (if brightness < h.CY_RGB_LED_MAX_BRIGHTNESS then brightness
            else h.CY_RGB_LED_MAX_BRIGHTNESS) }
  cy_rgb_led_set_color h s s.led_color

/-- Embedding of `cy_rgb_led_on`. -/
def cy_rgb_led_on (h : Header) (s : Driver) (color : Nat) (brightness : Nat) :
    Driver × List HalCall :=
  let s := { s with rgb_led_state := CY_RGB_LED_ON, led_color := u32 color }
  let started := [HalCall.pwm_start Channel.red, HalCall.pwm_start Channel.green,
                  HalCall.pwm_start Channel.blue]
  let r := cy_rgb_led_set_brightness h s brightness
  (r.1, started ++ r.2)

/-- Embedding of `cy_rgb_led_off`. -/
def cy_rgb_led_off (s : Driver) : Driver × List HalCall :=
  let s := { s with rgb_led_state := CY_RGB_LED_OFF }
  (s, [HalCall.pwm_stop Channel.red, HalCall.pwm_stop Channel.green,
       HalCall.pwm_stop Channel.blue])

/-- Embedding of `cy_rgb_led_get_color`. -/
def cy_rgb_led_get_color (h : Header) (s : Driver) : Nat :=
  if s.rgb_led_state = CY_RGB_LED_OFF then u32 h.CY_RGB_LED_COLOR_OFF
  else s.led_color

/-- Embedding of `cy_rgb_led_get_brightness`. -/
def cy_rgb_led_get_brightness (s : Driver) : Nat :=
  if s.rgb_led_state = CY_RGB_LED_OFF then 0
  else s.led_brightness

/-- Embedding of `cy_rgb_led_toggle`. -/
def cy_rgb_led_toggle (h : Header) (s : Driver) : Driver × List HalCall :=
  if s.rgb_led_state = CY_RGB_LED_OFF then
    cy_rgb_led_on h s s.led_color s.led_brightness
  else
    cy_rgb_led_off s

/-! ## Call sequences -/

/-- One call of a state-changing entry point, with its arguments (and, for
`init`, the result codes the HAL answers with). -/
inductive Op where
  | init (hal : HalResults) (pin_red pin_green pin_blue : Nat) (led_active_logic : Bool)
  | deinit
  | on (color brightness : Nat)
  | off
  | toggle
  | set_color (color : Nat)
  | set_brightness (brightness : Nat)
deriving DecidableEq, Repr

/-- Driver state after one call. -/
def Op.apply (h : Header) (s : Driver) : Op → Driver
  | Op.init hal pr pg pb logic => (cy_rgb_led_init h hal s pr pg pb logic).2.1
  | Op.deinit => (cy_rgb_led_deinit s).1
  | Op.on color brightness => (cy_rgb_led_on h s color brightness).1
  | Op.off => (cy_rgb_led_off s).1
  | Op.toggle => (cy_rgb_led_toggle h s).1
  | Op.set_color color => (cy_rgb_led_set_color h s color).1
  | Op.set_brightness brightness => (cy_rgb_led_set_brightness h s brightness).1

/-- Driver state after a sequence of calls, starting from the static
initialisers. -/
def run (h : Header) (ops : List Op) : Driver :=
  ops.foldl (Op.apply h) (Driver.initial h)

/-- States the driver can be in after some sequence of calls. -/
def Reachable (h : Header) (s : Driver) : Prop :=
  ∃ ops : List Op, run h ops = s

/-! ## Specification vocabulary -/

/-- Bit offset of a channel inside the packed colour. -/
def Channel.pos (h : Header) : Channel → Nat
  | Channel.red => h.CY_RGB_LED_RED_POS
  | Channel.green => h.CY_RGB_LED_GREEN_POS
  | Channel.blue => h.CY_RGB_LED_BLUE_POS

/-- The 8-bit component of `color` at the channel's bit offset. -/
def channel_value (h : Header) (color : Nat) (ch : Channel) : Nat :=
  u8 (color >>> ch.pos h)

/-- Polarity is active-high when the stored flag differs from
`CY_RGB_LED_ACTIVE_LOW`. -/
def Driver.activeHigh (h : Header) (s : Driver) : Prop :=
  s.rgb_led_active_logic ≠ h.CY_RGB_LED_ACTIVE_LOW

instance (h : Header) (s : Driver) : Decidable (s.activeHigh h) := by
  unfold Driver.activeHigh; infer_instance

/-- A sample header: brightness scale 100, channels at bits 16, 8 and 0,
off-colour 0, active-low encoded as `false`, success code 0. -/
def sampleHeader : Header :=
  { CY_RGB_LED_MAX_BRIGHTNESS := 100
    CY_RGB_LED_RED_POS := 16
    CY_RGB_LED_GREEN_POS := 8
    CY_RGB_LED_BLUE_POS := 0
    CY_RGB_LED_COLOR_OFF := 0
    CY_RGB_LED_ACTIVE_LOW := false
    CY_RSLT_SUCCESS := 0 }

/-- Rewrites the pulse width of a `pwm_set_period` call with `f`; any other call
is left as it is. -/
def HalCall.mapPulse (f : Nat → Nat) : HalCall → HalCall
  | HalCall.pwm_set_period ch period w => HalCall.pwm_set_period ch period (f w)
  | c => c

/-- A driver state whose flag is on: colour `0x00FF8040`, brightness 50,
polarity `true`. -/
def sampleOn : Driver :=
  { led_color := 0x00FF8040
    led_brightness := 50
    rgb_led_state := CY_RGB_LED_ON
    rgb_led_active_logic := true }

/-- Result code the HAL gives `cyhal_pwm_init` for a channel. -/
def HalResults.pwm_init (hal : HalResults) : Channel → Nat
  | Channel.red => hal.pwm_init_red
  | Channel.green => hal.pwm_init_green
  | Channel.blue => hal.pwm_init_blue

/-- Result codes of the six fallible HAL steps of `cy_rgb_led_init`, in program
order: clock allocate, set-frequency, set-enabled, PWM init red, green, blue. -/
def HalResults.steps (hal : HalResults) : List Nat :=
  [hal.clock_allocate, hal.clock_set_frequency, hal.clock_set_enabled,
   hal.pwm_init_red, hal.pwm_init_green, hal.pwm_init_blue]

/-- The six acquiring HAL calls of `cy_rgb_led_init`, in program order. -/
def acquisitionCalls (pin_red pin_green pin_blue : Nat) : List HalCall :=
  [HalCall.clock_allocate cyhal_clock_block_t.CYHAL_CLOCK_BLOCK_PERIPHERAL_16BIT,
   HalCall.clock_set_frequency CY_RGB_LED_TCPWM_CLK_HZ,
   HalCall.clock_set_enabled true true,
   HalCall.pwm_init Channel.red pin_red,
   HalCall.pwm_init Channel.green pin_green,
   HalCall.pwm_init Channel.blue pin_blue]

/-- Whether a call is `cyhal_pwm_init` on the given channel. -/
def HalCall.isPwmInit (ch : Channel) : HalCall → Bool
  | HalCall.pwm_init c _ => decide (c = ch)
  | _ => false

/-- Whether a call gives a resource back: freeing a PWM, disabling or freeing
the clock. -/
def HalCall.isRelease : HalCall → Bool
  | HalCall.pwm_free _ => true
  | HalCall.clock_set_enabled false _ => true
  | HalCall.clock_free => true
  | _ => false

/-- HAL answers with which the first five steps succeed and the blue PWM
cannot be initialised (code 7), against `sampleHeader`. -/
def blueFails : HalResults :=
  { clock_allocate := 0, clock_set_frequency := 0, clock_set_enabled := 0,
    pwm_init_red := 0, pwm_init_green := 0, pwm_init_blue := 7 }

/-- Whether a call is `cyhal_pwm_start`. -/
def HalCall.isStart : HalCall → Bool
  | HalCall.pwm_start _ => true
  | _ => false

/-- Whether a call is `cyhal_pwm_stop`. -/
def HalCall.isStop : HalCall → Bool
  | HalCall.pwm_stop _ => true
  | _ => false

/-- Whether a call is `cyhal_pwm_set_period`. -/
def HalCall.isSetPeriod : HalCall → Bool
  | HalCall.pwm_set_period _ _ _ => true
  | _ => false

/-- Whether a call is `cyhal_pwm_set_period` on the given channel. -/
def HalCall.isSetPeriodOn (ch : Channel) : HalCall → Bool
  | HalCall.pwm_set_period c _ _ => decide (c = ch)
  | _ => false

/-- In the call list `t`, every call satisfying `p` comes before every call
satisfying `q`. -/
def Precedes (p q : HalCall → Bool) (t : List HalCall) : Prop :=
  ∀ (i j : Nat) (c d : HalCall),
    t[i]? = some c → t[j]? = some d → p c = true → q d = true → i < j

/-- HAL calls issued by one call of an entry point. -/
def Op.calls (h : Header) (s : Driver) : Op → List HalCall
  | Op.init hal pr pg pb logic => (cy_rgb_led_init h hal s pr pg pb logic).2.2
  | Op.deinit => (cy_rgb_led_deinit s).2
  | Op.on color brightness => (cy_rgb_led_on h s color brightness).2
  | Op.off => (cy_rgb_led_off s).2
  | Op.toggle => (cy_rgb_led_toggle h s).2
  | Op.set_color color => (cy_rgb_led_set_color h s color).2
  | Op.set_brightness brightness => (cy_rgb_led_set_brightness h s brightness).2

/-- HAL answers with which every step of `cy_rgb_led_init` succeeds, against
`sampleHeader`. -/
def allSucceed : HalResults :=
  { clock_allocate := 0, clock_set_frequency := 0, clock_set_enabled := 0,
    pwm_init_red := 0, pwm_init_green := 0, pwm_init_blue := 0 }

/-- Modelled from the spec: the value of `CY_RGB_LED_MAX_BRIGHTNESS`, which is
defined in `cy_rgb_led.h` and not in `cy_rgb_led.c`.  The spec clamps the
brightness to `[0, MAX_BRIGHTNESS]`, computes
`pulse_width = (brightness * channel_value) / MAX_BRIGHTNESS`, and requires:
"given brightness 255 (max), channel value 255, active-high polarity, pulse
width = 255 (period = 255, fully on)".  A header meets the spec when the
clamped brightness 255 and the channel value 255 give the pulse width 255. -/
def Header.meetsDutyCycleSpec (h : Header) : Prop :=
  min 255 h.CY_RGB_LED_MAX_BRIGHTNESS * 255 / h.CY_RGB_LED_MAX_BRIGHTNESS = 255

instance (h : Header) : Decidable h.meetsDutyCycleSpec := by
  unfold Header.meetsDutyCycleSpec; infer_instance

/-! ## Arithmetic of the duty cycle -/

theorem u32_of_lt {n : Nat} (hn : n < 2 ^ 32) : u32 n = n :=
  Nat.mod_eq_of_lt hn

theorem u8_of_lt {n : Nat} (hn : n < 2 ^ 8) : u8 n = n :=
  Nat.mod_eq_of_lt hn

theorem u8_lt (n : Nat) : u8 n < 2 ^ 8 :=
  Nat.mod_lt n (by norm_num)

theorem u32_lt (n : Nat) : u32 n < 2 ^ 32 :=
  Nat.mod_lt n (by norm_num)

theorem u8_le_self (n : Nat) : u8 n ≤ n :=
  Nat.mod_le n _

/-- The scaled component fits a `uint32_t` whenever the brightness is a
`uint8_t` value, so the assignment to the pulse-width variable loses nothing. -/
theorem scaled_lt_of_u8 {b : Nat} (hb : b < 2 ^ 8) (x m : Nat) :
    b * u8 x / m < 2 ^ 32 := by
  have hx : u8 x < 2 ^ 8 := u8_lt x
  have h1 : b * u8 x ≤ 255 * 255 := Nat.mul_le_mul (by omega) (by omega)
  have h2 : b * u8 x / m ≤ b * u8 x := Nat.div_le_self _ _
  omega

/-- With the brightness inside the scale, the scaled component does not exceed
the component, hence not the period. -/
theorem scaled_le_period {b m : Nat} (hb : b ≤ m) (x : Nat) :
    b * u8 x / m ≤ 255 := by
  have hx : u8 x < 2 ^ 8 := u8_lt x
  rcases Nat.eq_zero_or_pos m with hm | hm
  · subst hm; simp
  · have h1 : b * u8 x ≤ m * u8 x := Nat.mul_le_mul_right _ hb
    have h2 : b * u8 x / m ≤ m * u8 x / m := Nat.div_le_div_right h1
    rw [Nat.mul_div_cancel_left _ hm] at h2
    omega

theorem sub32_of_le {w : Nat} (hw : w ≤ 255) :
    sub32 CY_RGB_LED_PWM_PERIOD_US w = 255 - w := by
  unfold sub32 CY_RGB_LED_PWM_PERIOD_US
  omega

/-- The stored brightness after clamping is the smaller of the argument and
the scale. -/
theorem clamp_eq_min {b : Nat} (hb : b < 2 ^ 8) (m : Nat) :
    u8 (if b < m then b else m) = min b m := by
  split
  · rename_i hlt
    rw [u8_of_lt hb, Nat.min_eq_left (Nat.le_of_lt hlt)]
  · rename_i hge
    have hmb : m ≤ b := Nat.le_of_not_lt hge
    rw [u8_of_lt (by omega), Nat.min_eq_right hmb]

theorem clamp_le (b m : Nat) : u8 (if b < m then b else m) ≤ m := by
  split
  · rename_i hlt
    exact Nat.le_trans (u8_le_self b) (Nat.le_of_lt hlt)
  · exact u8_le_self m

/-! ## Colour and brightness -/

/-- C1: with active-high polarity, `cy_rgb_led_set_color c` stores the 32-bit
colour `c`, leaves the other variables alone and issues exactly three
`cyhal_pwm_set_period` calls, to red, green and blue in that order, each with
period 255 and pulse width `led_brightness * channel_value / MAX_BRIGHTNESS`. -/
theorem set_color_active_high (h : Header) (s : Driver) (c : Nat)
    (hpol : s.activeHigh h) (hc : c < 2 ^ 32) (hb : s.led_brightness < 2 ^ 8) :
    cy_rgb_led_set_color h s c =
      ({ s with led_color := c },
       [HalCall.pwm_set_period Channel.red 255
          (s.led_brightness * channel_value h c Channel.red
            / h.CY_RGB_LED_MAX_BRIGHTNESS),
        HalCall.pwm_set_period Channel.green 255
          (s.led_brightness * channel_value h c Channel.green
            / h.CY_RGB_LED_MAX_BRIGHTNESS),
        HalCall.pwm_set_period Channel.blue 255
          (s.led_brightness * channel_value h c Channel.blue
            / h.CY_RGB_LED_MAX_BRIGHTNESS)]) := by
  have hne : ¬ s.rgb_led_active_logic = h.CY_RGB_LED_ACTIVE_LOW := hpol
  simp only [cy_rgb_led_set_color, u32_of_lt hc, hne, if_false, channel_value,
    Channel.pos, CY_RGB_LED_PWM_PERIOD_US, u32_of_lt (scaled_lt_of_u8 hb _ _)]

theorem set_color_active_high_witness :
    sampleOn.activeHigh sampleHeader ∧ 0x00FF8040 < 2 ^ 32 ∧
    sampleOn.led_brightness < 2 ^ 8 ∧
    cy_rgb_led_set_color sampleHeader sampleOn 0x00FF8040 =
      ({ sampleOn with led_color := 0x00FF8040 },
       [HalCall.pwm_set_period Channel.red 255
          (sampleOn.led_brightness * channel_value sampleHeader 0x00FF8040 Channel.red
            / sampleHeader.CY_RGB_LED_MAX_BRIGHTNESS),
        HalCall.pwm_set_period Channel.green 255
          (sampleOn.led_brightness * channel_value sampleHeader 0x00FF8040 Channel.green
            / sampleHeader.CY_RGB_LED_MAX_BRIGHTNESS),
        HalCall.pwm_set_period Channel.blue 255
          (sampleOn.led_brightness * channel_value sampleHeader 0x00FF8040 Channel.blue
            / sampleHeader.CY_RGB_LED_MAX_BRIGHTNESS)]) :=
  ⟨by decide, by decide, by decide,
   set_color_active_high sampleHeader sampleOn 0x00FF8040 (by decide) (by decide)
     (by decide)⟩

/-- C2: for two driver states with the same brightness, one active-low and one
active-high, the calls `cy_rgb_led_set_color c` makes in the active-low state
are those of the active-high state with every pulse width `w` replaced by the
unsigned difference `255 - w`; when the stored brightness lies within the scale
every active-high pulse width is at most 255, so the difference is the exact
`255 - w`. -/
theorem set_color_active_low_inverts (h : Header) (sH sL : Driver) (c : Nat)
    (hH : sH.activeHigh h)
    (hL : sL.rgb_led_active_logic = h.CY_RGB_LED_ACTIVE_LOW)
    (hsame : sL.led_brightness = sH.led_brightness) :
    (cy_rgb_led_set_color h sL c).2 =
        (cy_rgb_led_set_color h sH c).2.map
          (HalCall.mapPulse (sub32 CY_RGB_LED_PWM_PERIOD_US)) ∧
    (sH.led_brightness ≤ h.CY_RGB_LED_MAX_BRIGHTNESS →
      (∀ ch p w, HalCall.pwm_set_period ch p w ∈ (cy_rgb_led_set_color h sH c).2 →
        w ≤ 255) ∧
      (cy_rgb_led_set_color h sL c).2 =
        (cy_rgb_led_set_color h sH c).2.map (HalCall.mapPulse (fun w => 255 - w))) := by
  have hne : ¬ sH.rgb_led_active_logic = h.CY_RGB_LED_ACTIVE_LOW := hH
  refine ⟨?_, ?_⟩
  · simp only [cy_rgb_led_set_color, hne, hL, hsame, if_false, if_true, List.map,
      HalCall.mapPulse]
  · intro hb
    have hle : ∀ x, u32 (sH.led_brightness * u8 x / h.CY_RGB_LED_MAX_BRIGHTNESS) ≤ 255 :=
      fun x => Nat.le_trans (Nat.mod_le _ _) (scaled_le_period hb x)
    refine ⟨?_, ?_⟩
    · intro ch p w hw
      simp only [cy_rgb_led_set_color, hne, if_false, List.mem_cons, List.mem_singleton,
        HalCall.pwm_set_period.injEq, List.mem_nil_iff, or_false] at hw
      rcases hw with ⟨_, _, rfl⟩ | ⟨_, _, rfl⟩ | ⟨_, _, rfl⟩ <;> exact hle _
    · simp only [cy_rgb_led_set_color, hne, hL, hsame, if_false, if_true, List.map,
        HalCall.mapPulse, sub32_of_le (hle _)]

theorem set_color_active_low_inverts_witness :
    (cy_rgb_led_set_color sampleHeader
        { sampleOn with rgb_led_active_logic := false } 0x00FF8040).2 =
      [HalCall.pwm_set_period Channel.red 255 128,
       HalCall.pwm_set_period Channel.green 255 191,
       HalCall.pwm_set_period Channel.blue 255 223] ∧
    (cy_rgb_led_set_color sampleHeader sampleOn 0x00FF8040).2 =
      [HalCall.pwm_set_period Channel.red 255 127,
       HalCall.pwm_set_period Channel.green 255 64,
       HalCall.pwm_set_period Channel.blue 255 32] ∧
    (cy_rgb_led_set_color sampleHeader
        { sampleOn with rgb_led_active_logic := false } 0x00FF8040).2 =
      (cy_rgb_led_set_color sampleHeader sampleOn 0x00FF8040).2.map
        (HalCall.mapPulse (fun w => 255 - w)) :=
  ⟨by decide, by decide,
   ((set_color_active_low_inverts sampleHeader sampleOn
      { sampleOn with rgb_led_active_logic := false } 0x00FF8040
      (by decide) rfl rfl).2 (by decide)).2⟩

/-- C3: while the flag is on, `cy_rgb_led_set_brightness b` followed by
`cy_rgb_led_get_brightness` returns `b` when `b ≤ MAX_BRIGHTNESS` and
`MAX_BRIGHTNESS` when `b > MAX_BRIGHTNESS`, that is `min b MAX_BRIGHTNESS`,
for every 8-bit `b`. -/
theorem get_brightness_after_set_brightness (h : Header) (s : Driver) (b : Nat)
    (hb : b < 2 ^ 8) (hon : s.rgb_led_state = CY_RGB_LED_ON) :
    cy_rgb_led_get_brightness (cy_rgb_led_set_brightness h s b).1 =
        min b h.CY_RGB_LED_MAX_BRIGHTNESS ∧
    (cy_rgb_led_set_brightness h s b).1.led_brightness =
        min b h.CY_RGB_LED_MAX_BRIGHTNESS ∧
    (b ≤ h.CY_RGB_LED_MAX_BRIGHTNESS →
      cy_rgb_led_get_brightness (cy_rgb_led_set_brightness h s b).1 = b) ∧
    (h.CY_RGB_LED_MAX_BRIGHTNESS < b →
      cy_rgb_led_get_brightness (cy_rgb_led_set_brightness h s b).1
        = h.CY_RGB_LED_MAX_BRIGHTNESS) := by
  have hst : (cy_rgb_led_set_brightness h s b).1.led_brightness =
      min b h.CY_RGB_LED_MAX_BRIGHTNESS := by
    simp only [cy_rgb_led_set_brightness, cy_rgb_led_set_color, clamp_eq_min hb]
  have hget : cy_rgb_led_get_brightness (cy_rgb_led_set_brightness h s b).1 =
      min b h.CY_RGB_LED_MAX_BRIGHTNESS := by
    have hflag : (cy_rgb_led_set_brightness h s b).1.rgb_led_state = CY_RGB_LED_ON := by
      simp only [cy_rgb_led_set_brightness, cy_rgb_led_set_color, hon]
    unfold cy_rgb_led_get_brightness
    rw [hflag, hst]
    simp [CY_RGB_LED_ON, CY_RGB_LED_OFF]
  refine ⟨hget, hst, ?_, ?_⟩
  · intro hle
    rw [hget, Nat.min_eq_left hle]
  · intro hlt
    rw [hget, Nat.min_eq_right (Nat.le_of_lt hlt)]

theorem get_brightness_after_set_brightness_witness :
    cy_rgb_led_get_brightness (cy_rgb_led_set_brightness sampleHeader sampleOn 200).1
      = 100 ∧
    cy_rgb_led_get_brightness (cy_rgb_led_set_brightness sampleHeader sampleOn 30).1
      = 30 :=
  ⟨(get_brightness_after_set_brightness sampleHeader sampleOn 200
      (by decide) rfl).2.2.2 (by decide),
   (get_brightness_after_set_brightness sampleHeader sampleOn 30
      (by decide) rfl).2.2.1 (by decide)⟩

/-- C4: from any prior state, after `cy_rgb_led_on c b` the colour query
returns the 32-bit colour `c` exactly, and after a following `cy_rgb_led_off`
it returns `CY_RGB_LED_COLOR_OFF` (a 32-bit constant) whatever `c` was. -/
theorem get_color_after_on_and_off (h : Header) (s : Driver) (c b : Nat)
    (hc : c < 2 ^ 32) (hoff : h.CY_RGB_LED_COLOR_OFF < 2 ^ 32) :
    cy_rgb_led_get_color h (cy_rgb_led_on h s c b).1 = c ∧
    cy_rgb_led_get_color h (cy_rgb_led_off (cy_rgb_led_on h s c b).1).1
      = h.CY_RGB_LED_COLOR_OFF := by
  refine ⟨?_, ?_⟩
  · simp [cy_rgb_led_get_color, cy_rgb_led_on, cy_rgb_led_set_brightness,
      cy_rgb_led_set_color, CY_RGB_LED_ON, CY_RGB_LED_OFF, u32_of_lt hc]
  · simp [cy_rgb_led_get_color, cy_rgb_led_off, CY_RGB_LED_OFF, u32_of_lt hoff]

theorem get_color_after_on_and_off_witness :
    cy_rgb_led_get_color sampleHeader
        (cy_rgb_led_on sampleHeader (Driver.initial sampleHeader) 0xABCDEF12 77).1
      = 0xABCDEF12 ∧
    cy_rgb_led_get_color sampleHeader
        (cy_rgb_led_off
          (cy_rgb_led_on sampleHeader (Driver.initial sampleHeader) 0xABCDEF12 77).1).1
      = sampleHeader.CY_RGB_LED_COLOR_OFF :=
  get_color_after_on_and_off sampleHeader (Driver.initial sampleHeader) 0xABCDEF12 77
    (by decide) (by decide)

/-! ## Invariants of reachable states -/

theorem init_state (h : Header) (hal : HalResults) (s : Driver)
    (pr pg pb : Nat) (logic : Bool) :
    (cy_rgb_led_init h hal s pr pg pb logic).2.1 =
      { s with rgb_led_active_logic := logic } := rfl

/-- Every entry point keeps the colour a `uint32_t` value and the brightness a
`uint8_t` value inside the scale. -/
theorem apply_preserves_ranges (h : Header) (s : Driver) (op : Op)
    (hs : s.led_color < 2 ^ 32 ∧ s.led_brightness ≤ h.CY_RGB_LED_MAX_BRIGHTNESS
      ∧ s.led_brightness < 2 ^ 8) :
    (op.apply h s).led_color < 2 ^ 32 ∧
    (op.apply h s).led_brightness ≤ h.CY_RGB_LED_MAX_BRIGHTNESS ∧
    (op.apply h s).led_brightness < 2 ^ 8 := by
  obtain ⟨hc, hb, hb8⟩ := hs
  rcases op with ⟨hal, pr, pg, pb, logic⟩ | _ | ⟨color, brightness⟩ | _ | _ | ⟨color⟩
    | ⟨brightness⟩
  · simp only [Op.apply, init_state]
    exact ⟨hc, hb, hb8⟩
  · exact ⟨hc, hb, hb8⟩
  · simp only [Op.apply, cy_rgb_led_on, cy_rgb_led_set_brightness, cy_rgb_led_set_color]
    exact ⟨u32_lt _, clamp_le _ _, u8_lt _⟩
  · exact ⟨hc, hb, hb8⟩
  · simp only [Op.apply, cy_rgb_led_toggle]
    split
    · simp only [cy_rgb_led_on, cy_rgb_led_set_brightness, cy_rgb_led_set_color]
      exact ⟨u32_lt _, clamp_le _ _, u8_lt _⟩
    · exact ⟨hc, hb, hb8⟩
  · simp only [Op.apply, cy_rgb_led_set_color]
    exact ⟨u32_lt _, hb, hb8⟩
  · simp only [Op.apply, cy_rgb_led_set_brightness, cy_rgb_led_set_color]
    exact ⟨u32_lt _, clamp_le _ _, u8_lt _⟩

theorem foldl_preserves_ranges (h : Header) (ops : List Op) :
    ∀ s : Driver,
      (s.led_color < 2 ^ 32 ∧ s.led_brightness ≤ h.CY_RGB_LED_MAX_BRIGHTNESS
        ∧ s.led_brightness < 2 ^ 8) →
      ((ops.foldl (Op.apply h) s).led_color < 2 ^ 32 ∧
       (ops.foldl (Op.apply h) s).led_brightness ≤ h.CY_RGB_LED_MAX_BRIGHTNESS ∧
       (ops.foldl (Op.apply h) s).led_brightness < 2 ^ 8) := by
  induction ops with
  | nil => intro s hs; exact hs
  | cons op rest ih =>
    intro s hs
    exact ih (op.apply h s) (apply_preserves_ranges h s op hs)

/-- In a reachable state the colour is a 32-bit value and the brightness an
8-bit value not above the scale. -/
theorem reachable_ranges (h : Header) (s : Driver) (hr : Reachable h s) :
    s.led_color < 2 ^ 32 ∧ s.led_brightness ≤ h.CY_RGB_LED_MAX_BRIGHTNESS
      ∧ s.led_brightness < 2 ^ 8 := by
  obtain ⟨ops, rfl⟩ := hr
  exact foldl_preserves_ranges h ops (Driver.initial h)
    ⟨u32_lt _, Nat.zero_le _, by simp [Driver.initial]⟩

/-! ## Toggle -/

/-- C5: in every reachable state `s`, two consecutive `cy_rgb_led_toggle` calls
give back the on/off flag of `s`; if `s` was on they give back `s` itself, so
the colour and brightness queries answer as they did in `s`. -/
theorem toggle_toggle (h : Header) (s : Driver) (hr : Reachable h s) :
    (cy_rgb_led_toggle h (cy_rgb_led_toggle h s).1).1.rgb_led_state
        = s.rgb_led_state ∧
    (s.rgb_led_state = CY_RGB_LED_ON →
      (cy_rgb_led_toggle h (cy_rgb_led_toggle h s).1).1 = s ∧
      cy_rgb_led_get_color h (cy_rgb_led_toggle h (cy_rgb_led_toggle h s).1).1
        = cy_rgb_led_get_color h s ∧
      cy_rgb_led_get_brightness (cy_rgb_led_toggle h (cy_rgb_led_toggle h s).1).1
        = cy_rgb_led_get_brightness s) := by
  obtain ⟨hc, hb, hb8⟩ := reachable_ranges h s hr
  obtain ⟨col, br, st, lg⟩ := s
  simp only at hc hb hb8
  have hback : st = CY_RGB_LED_ON →
      (cy_rgb_led_toggle h (cy_rgb_led_toggle h
        { led_color := col, led_brightness := br, rgb_led_state := st,
          rgb_led_active_logic := lg }).1).1 =
        { led_color := col, led_brightness := br, rgb_led_state := st,
          rgb_led_active_logic := lg } := by
    intro hon
    subst hon
    simp [cy_rgb_led_toggle, cy_rgb_led_off, cy_rgb_led_on, cy_rgb_led_set_brightness,
      cy_rgb_led_set_color, CY_RGB_LED_ON, CY_RGB_LED_OFF, u32_of_lt hc,
      clamp_eq_min hb8, Nat.min_eq_left hb]
  refine ⟨?_, ?_⟩
  · cases st with
    | false =>
      simp [cy_rgb_led_toggle, cy_rgb_led_off, cy_rgb_led_on, cy_rgb_led_set_brightness,
        cy_rgb_led_set_color, CY_RGB_LED_ON, CY_RGB_LED_OFF]
    | true => rw [hback rfl]
  · intro hon
    simp only at hon
    rw [hback hon]
    exact ⟨rfl, rfl, rfl⟩

theorem toggle_toggle_witness :
    Reachable sampleHeader (run sampleHeader [Op.on 0x00FF8040 50]) ∧
    (run sampleHeader [Op.on 0x00FF8040 50]).rgb_led_state = CY_RGB_LED_ON ∧
    (cy_rgb_led_toggle sampleHeader
      (cy_rgb_led_toggle sampleHeader (run sampleHeader [Op.on 0x00FF8040 50])).1).1
      = run sampleHeader [Op.on 0x00FF8040 50] :=
  ⟨⟨[Op.on 0x00FF8040 50], rfl⟩, by decide,
   ((toggle_toggle sampleHeader (run sampleHeader [Op.on 0x00FF8040 50])
      ⟨[Op.on 0x00FF8040 50], rfl⟩).2 (by decide)).1⟩

/-! ## Low-power readiness -/

/-- C6: `cy_rgb_led_lp_readiness` returns true exactly when the mode is
`CYHAL_SYSPM_CHECK_READY` and the flag is off; it returns false for the three
other modes and whenever the LED is on; it leaves the driver state as it was
and makes no HAL call, whatever the transition state and callback argument. -/
theorem lp_readiness_spec (s : Driver) (state : Nat)
    (mode : cyhal_syspm_callback_mode_t) (callback_arg : Nat) :
    ((cy_rgb_led_lp_readiness s state mode callback_arg).1 = true ↔
      (mode = cyhal_syspm_callback_mode_t.CYHAL_SYSPM_CHECK_READY
        ∧ s.rgb_led_state = CY_RGB_LED_OFF)) ∧
    (cy_rgb_led_lp_readiness s state
      cyhal_syspm_callback_mode_t.CYHAL_SYSPM_CHECK_FAIL callback_arg).1 = false ∧
    (cy_rgb_led_lp_readiness s state
      cyhal_syspm_callback_mode_t.CYHAL_SYSPM_BEFORE_TRANSITION callback_arg).1 = false ∧
    (cy_rgb_led_lp_readiness s state
      cyhal_syspm_callback_mode_t.CYHAL_SYSPM_AFTER_TRANSITION callback_arg).1 = false ∧
    (cy_rgb_led_lp_readiness { s with rgb_led_state := CY_RGB_LED_ON } state mode
      callback_arg).1 = false ∧
    (cy_rgb_led_lp_readiness s state mode callback_arg).2.1 = s ∧
    (cy_rgb_led_lp_readiness s state mode callback_arg).2.2 = [] := by
  refine ⟨?_, ?_, ?_, ?_, ?_, rfl, rfl⟩ <;>
    simp [cy_rgb_led_lp_readiness, CY_RGB_LED_ON, CY_RGB_LED_OFF]

/-! ## Initialisation -/

/-- The seven paths through `cy_rgb_led_init`: one per first failing step, and
the path on which every step succeeds.  Each gives the result code and the HAL
calls in full. -/
theorem init_paths (h : Header) (hal : HalResults) (s : Driver)
    (pr pg pb : Nat) (logic : Bool) :
    (hal.clock_allocate ≠ h.CY_RSLT_SUCCESS ∧
      (cy_rgb_led_init h hal s pr pg pb logic).1 = hal.clock_allocate ∧
      (cy_rgb_led_init h hal s pr pg pb logic).2.2 =
        (acquisitionCalls pr pg pb).take 1) ∨
    (hal.clock_allocate = h.CY_RSLT_SUCCESS ∧
      hal.clock_set_frequency ≠ h.CY_RSLT_SUCCESS ∧
      (cy_rgb_led_init h hal s pr pg pb logic).1 = hal.clock_set_frequency ∧
      (cy_rgb_led_init h hal s pr pg pb logic).2.2 =
        (acquisitionCalls pr pg pb).take 2 ++
          [HalCall.clock_set_enabled false true, HalCall.clock_free]) ∨
    (hal.clock_allocate = h.CY_RSLT_SUCCESS ∧
      hal.clock_set_frequency = h.CY_RSLT_SUCCESS ∧
      hal.clock_set_enabled ≠ h.CY_RSLT_SUCCESS ∧
      (cy_rgb_led_init h hal s pr pg pb logic).1 = hal.clock_set_enabled ∧
      (cy_rgb_led_init h hal s pr pg pb logic).2.2 =
        (acquisitionCalls pr pg pb).take 3 ++
          [HalCall.clock_set_enabled false true, HalCall.clock_free]) ∨
    (hal.clock_allocate = h.CY_RSLT_SUCCESS ∧
      hal.clock_set_frequency = h.CY_RSLT_SUCCESS ∧
      hal.clock_set_enabled = h.CY_RSLT_SUCCESS ∧
      hal.pwm_init_red ≠ h.CY_RSLT_SUCCESS ∧
      (cy_rgb_led_init h hal s pr pg pb logic).1 = hal.pwm_init_red ∧
      (cy_rgb_led_init h hal s pr pg pb logic).2.2 =
        (acquisitionCalls pr pg pb).take 4 ++
          [HalCall.clock_set_enabled false true, HalCall.clock_free]) ∨
    (hal.clock_allocate = h.CY_RSLT_SUCCESS ∧
      hal.clock_set_frequency = h.CY_RSLT_SUCCESS ∧
      hal.clock_set_enabled = h.CY_RSLT_SUCCESS ∧
      hal.pwm_init_red = h.CY_RSLT_SUCCESS ∧
      hal.pwm_init_green ≠ h.CY_RSLT_SUCCESS ∧
      (cy_rgb_led_init h hal s pr pg pb logic).1 = hal.pwm_init_green ∧
      (cy_rgb_led_init h hal s pr pg pb logic).2.2 =
        (acquisitionCalls pr pg pb).take 5 ++
          [HalCall.pwm_free Channel.red,
           HalCall.clock_set_enabled false true, HalCall.clock_free]) ∨
    (hal.clock_allocate = h.CY_RSLT_SUCCESS ∧
      hal.clock_set_frequency = h.CY_RSLT_SUCCESS ∧
      hal.clock_set_enabled = h.CY_RSLT_SUCCESS ∧
      hal.pwm_init_red = h.CY_RSLT_SUCCESS ∧
      hal.pwm_init_green = h.CY_RSLT_SUCCESS ∧
      hal.pwm_init_blue ≠ h.CY_RSLT_SUCCESS ∧
      (cy_rgb_led_init h hal s pr pg pb logic).1 = hal.pwm_init_blue ∧
      (cy_rgb_led_init h hal s pr pg pb logic).2.2 =
        (acquisitionCalls pr pg pb).take 6 ++
          [HalCall.pwm_free Channel.red, HalCall.pwm_free Channel.green,
           HalCall.clock_set_enabled false true, HalCall.clock_free]) ∨
    (hal.clock_allocate = h.CY_RSLT_SUCCESS ∧
      hal.clock_set_frequency = h.CY_RSLT_SUCCESS ∧
      hal.clock_set_enabled = h.CY_RSLT_SUCCESS ∧
      hal.pwm_init_red = h.CY_RSLT_SUCCESS ∧
      hal.pwm_init_green = h.CY_RSLT_SUCCESS ∧
      hal.pwm_init_blue = h.CY_RSLT_SUCCESS ∧
      (cy_rgb_led_init h hal s pr pg pb logic).1 = h.CY_RSLT_SUCCESS ∧
      (cy_rgb_led_init h hal s pr pg pb logic).2.2 =
        acquisitionCalls pr pg pb ++ [HalCall.syspm_register_callback]) := by
  by_cases h0 : hal.clock_allocate = h.CY_RSLT_SUCCESS
  · by_cases h1 : hal.clock_set_frequency = h.CY_RSLT_SUCCESS
    · by_cases h2 : hal.clock_set_enabled = h.CY_RSLT_SUCCESS
      · by_cases h3 : hal.pwm_init_red = h.CY_RSLT_SUCCESS
        · by_cases h4 : hal.pwm_init_green = h.CY_RSLT_SUCCESS
          · by_cases h5 : hal.pwm_init_blue = h.CY_RSLT_SUCCESS
            · refine Or.inr (Or.inr (Or.inr (Or.inr (Or.inr (Or.inr
                ⟨h0, h1, h2, h3, h4, h5, ?_, ?_⟩)))))
              · simp [cy_rgb_led_init, cy_rgb_led_register_lp_cb, h0, h1, h2, h3, h4, h5]
              · simp [cy_rgb_led_init, cy_rgb_led_register_lp_cb, acquisitionCalls,
                  h0, h1, h2, h3, h4, h5]
            · refine Or.inr (Or.inr (Or.inr (Or.inr (Or.inr (Or.inl
                ⟨h0, h1, h2, h3, h4, h5, ?_, ?_⟩)))))
              · simp [cy_rgb_led_init, h0, h1, h2, h3, h4, h5]
              · simp [cy_rgb_led_init, acquisitionCalls, h0, h1, h2, h3, h4, h5]
          · refine Or.inr (Or.inr (Or.inr (Or.inr (Or.inl ⟨h0, h1, h2, h3, h4, ?_, ?_⟩))))
            · simp [cy_rgb_led_init, h0, h1, h2, h3, h4]
            · simp [cy_rgb_led_init, acquisitionCalls, h0, h1, h2, h3, h4]
        · refine Or.inr (Or.inr (Or.inr (Or.inl ⟨h0, h1, h2, h3, ?_, ?_⟩)))
          · simp [cy_rgb_led_init, h0, h1, h2, h3]
          · simp [cy_rgb_led_init, acquisitionCalls, h0, h1, h2, h3]
      · refine Or.inr (Or.inr (Or.inl ⟨h0, h1, h2, ?_, ?_⟩))
        · simp [cy_rgb_led_init, h0, h1, h2]
        · simp [cy_rgb_led_init, acquisitionCalls, h0, h1, h2]
    · refine Or.inr (Or.inl ⟨h0, h1, ?_, ?_⟩)
      · simp [cy_rgb_led_init, h0, h1]
      · simp [cy_rgb_led_init, acquisitionCalls, h0, h1]
  · refine Or.inl ⟨h0, ?_, ?_⟩
    · simp [cy_rgb_led_init, h0]
    · simp [cy_rgb_led_init, acquisitionCalls, h0]

/-- C7: when some HAL step of `cy_rgb_led_init` fails, the calls made free each
PWM channel once if its `cyhal_pwm_init` was attempted and succeeded and not at
all otherwise; disable and free the clock once, as the last two calls, if the
clock was allocated and not at all otherwise; and never register the power-mode
callback.  When only the blue PWM init fails, the calls are the six
acquisitions followed by freeing red, freeing green, disabling and freeing the
clock. -/
theorem init_failure_releases (h : Header) (hal : HalResults) (s : Driver)
    (pr pg pb : Nat) (logic : Bool)
    (hfail : ∃ r ∈ hal.steps, r ≠ h.CY_RSLT_SUCCESS) :
    (∀ ch : Channel,
      (cy_rgb_led_init h hal s pr pg pb logic).2.2.count (HalCall.pwm_free ch) =
        if ((cy_rgb_led_init h hal s pr pg pb logic).2.2.any (HalCall.isPwmInit ch) = true
            ∧ hal.pwm_init ch = h.CY_RSLT_SUCCESS) then 1 else 0) ∧
    ((cy_rgb_led_init h hal s pr pg pb logic).2.2.count HalCall.clock_free =
        if (HalCall.clock_allocate cyhal_clock_block_t.CYHAL_CLOCK_BLOCK_PERIPHERAL_16BIT
              ∈ (cy_rgb_led_init h hal s pr pg pb logic).2.2
            ∧ hal.clock_allocate = h.CY_RSLT_SUCCESS) then 1 else 0) ∧
    ((cy_rgb_led_init h hal s pr pg pb logic).2.2.count
          (HalCall.clock_set_enabled false true) =
        if (HalCall.clock_allocate cyhal_clock_block_t.CYHAL_CLOCK_BLOCK_PERIPHERAL_16BIT
              ∈ (cy_rgb_led_init h hal s pr pg pb logic).2.2
            ∧ hal.clock_allocate = h.CY_RSLT_SUCCESS) then 1 else 0) ∧
    (hal.clock_allocate = h.CY_RSLT_SUCCESS →
      List.IsSuffix [HalCall.clock_set_enabled false true, HalCall.clock_free]
        (cy_rgb_led_init h hal s pr pg pb logic).2.2) ∧
    HalCall.syspm_register_callback ∉ (cy_rgb_led_init h hal s pr pg pb logic).2.2 ∧
    (hal.clock_allocate = h.CY_RSLT_SUCCESS →
      hal.clock_set_frequency = h.CY_RSLT_SUCCESS →
      hal.clock_set_enabled = h.CY_RSLT_SUCCESS →
      hal.pwm_init_red = h.CY_RSLT_SUCCESS →
      hal.pwm_init_green = h.CY_RSLT_SUCCESS →
      hal.pwm_init_blue ≠ h.CY_RSLT_SUCCESS →
      (cy_rgb_led_init h hal s pr pg pb logic).2.2 =
        acquisitionCalls pr pg pb ++
          [HalCall.pwm_free Channel.red, HalCall.pwm_free Channel.green,
           HalCall.clock_set_enabled false true, HalCall.clock_free]) := by
  rcases init_paths h hal s pr pg pb logic with
    ⟨h0, _, ht⟩ | ⟨h0, h1, _, ht⟩ | ⟨h0, h1, h2, _, ht⟩ | ⟨h0, h1, h2, h3, _, ht⟩ |
    ⟨h0, h1, h2, h3, h4, _, ht⟩ | ⟨h0, h1, h2, h3, h4, h5, _, ht⟩ |
    ⟨h0, h1, h2, h3, h4, h5, _, _⟩
  · refine ⟨?_, ?_, ?_, ?_, ?_, ?_⟩
    · intro ch
      cases ch <;>
        simp [ht, acquisitionCalls, List.count_cons, HalCall.isPwmInit, HalResults.pwm_init]
    · simp [ht, acquisitionCalls, List.count_cons, h0]
    · simp [ht, acquisitionCalls, List.count_cons, h0]
    · intro hc; exact absurd hc h0
    · simp [ht, acquisitionCalls]
    · intro hc; exact absurd hc h0
  · refine ⟨?_, ?_, ?_, ?_, ?_, ?_⟩
    · intro ch
      cases ch <;>
        simp [ht, acquisitionCalls, List.count_cons, HalCall.isPwmInit, HalResults.pwm_init]
    · simp [ht, acquisitionCalls, List.count_cons, h0]
    · simp [ht, acquisitionCalls, List.count_cons, h0]
    · intro _; rw [ht]; exact List.suffix_append _ _
    · simp [ht, acquisitionCalls]
    · intro _ hc; exact absurd hc h1
  · refine ⟨?_, ?_, ?_, ?_, ?_, ?_⟩
    · intro ch
      cases ch <;>
        simp [ht, acquisitionCalls, List.count_cons, HalCall.isPwmInit, HalResults.pwm_init]
    · simp [ht, acquisitionCalls, List.count_cons, h0]
    · simp [ht, acquisitionCalls, List.count_cons, h0]
    · intro _; rw [ht]; exact List.suffix_append _ _
    · simp [ht, acquisitionCalls]
    · intro _ _ hc; exact absurd hc h2
  · refine ⟨?_, ?_, ?_, ?_, ?_, ?_⟩
    · intro ch
      cases ch <;>
        simp [ht, acquisitionCalls, List.count_cons, HalCall.isPwmInit,
          HalResults.pwm_init, h3]
    · simp [ht, acquisitionCalls, List.count_cons, h0]
    · simp [ht, acquisitionCalls, List.count_cons, h0]
    · intro _; rw [ht]; exact List.suffix_append _ _
    · simp [ht, acquisitionCalls]
    · intro _ _ _ hc; exact absurd hc h3
  · refine ⟨?_, ?_, ?_, ?_, ?_, ?_⟩
    · intro ch
      cases ch <;>
        simp [ht, acquisitionCalls, List.count_cons, HalCall.isPwmInit,
          HalResults.pwm_init, h3, h4]
    · simp [ht, acquisitionCalls, List.count_cons, h0]
    · simp [ht, acquisitionCalls, List.count_cons, h0]
    · intro _; rw [ht]
      exact ⟨(acquisitionCalls pr pg pb).take 5 ++ [HalCall.pwm_free Channel.red],
        by simp⟩
    · simp [ht, acquisitionCalls]
    · intro _ _ _ _ hc; exact absurd hc h4
  · refine ⟨?_, ?_, ?_, ?_, ?_, ?_⟩
    · intro ch
      cases ch <;>
        simp [ht, acquisitionCalls, List.count_cons, HalCall.isPwmInit,
          HalResults.pwm_init, h3, h4, h5]
    · simp [ht, acquisitionCalls, List.count_cons, h0]
    · simp [ht, acquisitionCalls, List.count_cons, h0]
    · intro _; rw [ht]
      exact ⟨(acquisitionCalls pr pg pb).take 6 ++
        [HalCall.pwm_free Channel.red, HalCall.pwm_free Channel.green], by simp⟩
    · simp [ht, acquisitionCalls]
    · intro _ _ _ _ _ _; rw [ht]; simp [acquisitionCalls]
  · exfalso
    obtain ⟨r, hr, hne⟩ := hfail
    simp only [HalResults.steps, List.mem_cons, List.mem_singleton, List.mem_nil_iff,
      or_false] at hr
    rcases hr with rfl | rfl | rfl | rfl | rfl | rfl
    · exact hne h0
    · exact hne h1
    · exact hne h2
    · exact hne h3
    · exact hne h4
    · exact hne h5

theorem init_failure_releases_witness :
    (∃ r ∈ blueFails.steps, r ≠ sampleHeader.CY_RSLT_SUCCESS) ∧
    (cy_rgb_led_init sampleHeader blueFails (Driver.initial sampleHeader) 11 12 13
        true).2.2 =
      acquisitionCalls 11 12 13 ++
        [HalCall.pwm_free Channel.red, HalCall.pwm_free Channel.green,
         HalCall.clock_set_enabled false true, HalCall.clock_free] :=
  ⟨⟨7, by decide, by decide⟩,
   (init_failure_releases sampleHeader blueFails (Driver.initial sampleHeader) 11 12 13
      true ⟨7, by decide, by decide⟩).2.2.2.2.2 rfl rfl rfl rfl rfl (by decide)⟩

/-- C8: `cy_rgb_led_init` returns `CY_RSLT_SUCCESS` exactly when all six HAL
steps do; in every case it returns the code of the first step that did not
succeed (none: the success code); and its HAL calls are the acquiring calls up
to and including that step, followed on failure by release calls only and on
success by the callback registration only. -/
theorem init_result (h : Header) (hal : HalResults) (s : Driver)
    (pr pg pb : Nat) (logic : Bool) :
    ((cy_rgb_led_init h hal s pr pg pb logic).1 = h.CY_RSLT_SUCCESS ↔
      ∀ r ∈ hal.steps, r = h.CY_RSLT_SUCCESS) ∧
    (cy_rgb_led_init h hal s pr pg pb logic).1 =
      (hal.steps.find? (fun r => decide (r ≠ h.CY_RSLT_SUCCESS))).getD
        h.CY_RSLT_SUCCESS ∧
    ∃ rest : List HalCall,
      (cy_rgb_led_init h hal s pr pg pb logic).2.2 =
        (acquisitionCalls pr pg pb).take
          (hal.steps.findIdx (fun r => decide (r ≠ h.CY_RSLT_SUCCESS)) + 1) ++ rest ∧
      (if (cy_rgb_led_init h hal s pr pg pb logic).1 = h.CY_RSLT_SUCCESS then
        rest = [HalCall.syspm_register_callback]
       else ∀ c ∈ rest, c.isRelease = true) := by
  rcases init_paths h hal s pr pg pb logic with
    ⟨h0, hr, ht⟩ | ⟨h0, h1, hr, ht⟩ | ⟨h0, h1, h2, hr, ht⟩ | ⟨h0, h1, h2, h3, hr, ht⟩ |
    ⟨h0, h1, h2, h3, h4, hr, ht⟩ | ⟨h0, h1, h2, h3, h4, h5, hr, ht⟩ |
    ⟨h0, h1, h2, h3, h4, h5, hr, ht⟩
  · refine ⟨?_, ?_, [], ?_, ?_⟩
    · simp [hr, HalResults.steps, h0]
    · simp [hr, HalResults.steps, List.find?_cons, h0]
    · simp [ht, HalResults.steps, List.findIdx_cons, h0]
    · simp [hr, h0]
  · refine ⟨?_, ?_, [HalCall.clock_set_enabled false true, HalCall.clock_free], ?_, ?_⟩
    · simp [hr, HalResults.steps, h0, h1]
    · simp [hr, HalResults.steps, List.find?_cons, h0, h1]
    · simp [ht, HalResults.steps, List.findIdx_cons, h0, h1]
    · simp [hr, h1, HalCall.isRelease]
  · refine ⟨?_, ?_, [HalCall.clock_set_enabled false true, HalCall.clock_free], ?_, ?_⟩
    · simp [hr, HalResults.steps, h0, h1, h2]
    · simp [hr, HalResults.steps, List.find?_cons, h0, h1, h2]
    · simp [ht, HalResults.steps, List.findIdx_cons, h0, h1, h2]
    · simp [hr, h2, HalCall.isRelease]
  · refine ⟨?_, ?_, [HalCall.clock_set_enabled false true, HalCall.clock_free], ?_, ?_⟩
    · simp [hr, HalResults.steps, h0, h1, h2, h3]
    · simp [hr, HalResults.steps, List.find?_cons, h0, h1, h2, h3]
    · simp [ht, HalResults.steps, List.findIdx_cons, h0, h1, h2, h3]
    · simp [hr, h3, HalCall.isRelease]
  · refine ⟨?_, ?_, [HalCall.pwm_free Channel.red,
      HalCall.clock_set_enabled false true, HalCall.clock_free], ?_, ?_⟩
    · simp [hr, HalResults.steps, h0, h1, h2, h3, h4]
    · simp [hr, HalResults.steps, List.find?_cons, h0, h1, h2, h3, h4]
    · simp [ht, HalResults.steps, List.findIdx_cons, h0, h1, h2, h3, h4]
    · simp [hr, h4, HalCall.isRelease]
  · refine ⟨?_, ?_, [HalCall.pwm_free Channel.red, HalCall.pwm_free Channel.green,
      HalCall.clock_set_enabled false true, HalCall.clock_free], ?_, ?_⟩
    · simp [hr, HalResults.steps, h0, h1, h2, h3, h4, h5]
    · simp [hr, HalResults.steps, List.find?_cons, h0, h1, h2, h3, h4, h5]
    · simp [ht, HalResults.steps, List.findIdx_cons, h0, h1, h2, h3, h4, h5]
    · simp [hr, h5, HalCall.isRelease]
  · refine ⟨?_, ?_, [HalCall.syspm_register_callback], ?_, ?_⟩
    · simp [hr, HalResults.steps, h0, h1, h2, h3, h4, h5]
    · simp [hr, HalResults.steps, List.find?_cons, h0, h1, h2, h3, h4, h5]
    · simp [ht, HalResults.steps, List.findIdx_cons, h0, h1, h2, h3, h4, h5,
        acquisitionCalls]
    · simp [hr]

/-! ## Brightness extremes and the brightness invariant -/

/-- C9: with active-high polarity, `cy_rgb_led_set_brightness 0` gives every
channel pulse width 0 whatever the stored colour; and, the brightness scale
being a positive 8-bit constant and the stored colour a 32-bit value,
`cy_rgb_led_set_brightness 255` gives every channel its own colour component as
pulse width, so a channel whose component is 255 gets pulse width 255, the
period. -/
theorem set_brightness_extremes (h : Header) (s : Driver) (hpol : s.activeHigh h) :
    (cy_rgb_led_set_brightness h s 0).2 =
      [HalCall.pwm_set_period Channel.red 255 0,
       HalCall.pwm_set_period Channel.green 255 0,
       HalCall.pwm_set_period Channel.blue 255 0] ∧
    (0 < h.CY_RGB_LED_MAX_BRIGHTNESS → h.CY_RGB_LED_MAX_BRIGHTNESS ≤ 255 →
      s.led_color < 2 ^ 32 →
      (cy_rgb_led_set_brightness h s 255).2 =
        [HalCall.pwm_set_period Channel.red 255 (channel_value h s.led_color Channel.red),
         HalCall.pwm_set_period Channel.green 255
           (channel_value h s.led_color Channel.green),
         HalCall.pwm_set_period Channel.blue 255
           (channel_value h s.led_color Channel.blue)] ∧
      ∀ ch : Channel, channel_value h s.led_color ch = 255 →
        HalCall.pwm_set_period ch 255 255 ∈ (cy_rgb_led_set_brightness h s 255).2) := by
  have hne : ¬ s.rgb_led_active_logic = h.CY_RGB_LED_ACTIVE_LOW := hpol
  refine ⟨?_, ?_⟩
  · have hz : u8 (if 0 < h.CY_RGB_LED_MAX_BRIGHTNESS then 0
        else h.CY_RGB_LED_MAX_BRIGHTNESS) = 0 := by
      split
      · rfl
      · rename_i hm
        have : h.CY_RGB_LED_MAX_BRIGHTNESS = 0 := by omega
        rw [this]; rfl
    simp only [cy_rgb_led_set_brightness, cy_rgb_led_set_color, hz, hne, if_false,
      Nat.zero_mul, Nat.zero_div, CY_RGB_LED_PWM_PERIOD_US]
    rfl
  · intro hm0 hm hc
    have hst : u8 (if 255 < h.CY_RGB_LED_MAX_BRIGHTNESS then 255
        else h.CY_RGB_LED_MAX_BRIGHTNESS) = h.CY_RGB_LED_MAX_BRIGHTNESS := by
      rw [if_neg (by omega)]
      exact u8_of_lt (by omega)
    have hpw : ∀ x, u32 (h.CY_RGB_LED_MAX_BRIGHTNESS * u8 x / h.CY_RGB_LED_MAX_BRIGHTNESS)
        = u8 x := by
      intro x
      rw [Nat.mul_div_cancel_left _ hm0]
      exact u32_of_lt (Nat.lt_trans (u8_lt x) (by norm_num))
    have htrace : (cy_rgb_led_set_brightness h s 255).2 =
        [HalCall.pwm_set_period Channel.red 255 (channel_value h s.led_color Channel.red),
         HalCall.pwm_set_period Channel.green 255
           (channel_value h s.led_color Channel.green),
         HalCall.pwm_set_period Channel.blue 255
           (channel_value h s.led_color Channel.blue)] := by
      simp only [cy_rgb_led_set_brightness, cy_rgb_led_set_color, hst, hne, if_false,
        hpw, u32_of_lt hc, channel_value, Channel.pos, CY_RGB_LED_PWM_PERIOD_US]
    refine ⟨htrace, ?_⟩
    intro ch hch
    rw [htrace]
    cases ch <;> simp [← hch]

theorem set_brightness_extremes_witness :
    sampleOn.activeHigh sampleHeader ∧
    channel_value sampleHeader sampleOn.led_color Channel.red = 255 ∧
    HalCall.pwm_set_period Channel.red 255 255 ∈
      (cy_rgb_led_set_brightness sampleHeader sampleOn 255).2 :=
  ⟨by decide, by decide,
   ((set_brightness_extremes sampleHeader sampleOn (by decide)).2
      (by decide) (by decide) (by decide)).2 Channel.red (by decide)⟩

/-- C10: in every state reachable from the initial state by any sequence of
init, deinit, on, off, toggle, set_color and set_brightness calls with
arbitrary arguments, the stored brightness is at most
`CY_RGB_LED_MAX_BRIGHTNESS`. -/
theorem brightness_le_max (h : Header) (s : Driver) (hr : Reachable h s) :
    s.led_brightness ≤ h.CY_RGB_LED_MAX_BRIGHTNESS :=
  (reachable_ranges h s hr).2.1

theorem brightness_le_max_witness :
    Reachable sampleHeader
      (run sampleHeader [Op.on 0x00FF8040 50, Op.set_brightness 250, Op.toggle,
        Op.toggle]) ∧
    (run sampleHeader [Op.on 0x00FF8040 50, Op.set_brightness 250, Op.toggle,
        Op.toggle]).led_brightness = 100 ∧
    (run sampleHeader [Op.on 0x00FF8040 50, Op.set_brightness 250, Op.toggle,
        Op.toggle]).led_brightness ≤ sampleHeader.CY_RGB_LED_MAX_BRIGHTNESS :=
  ⟨⟨_, rfl⟩, by decide,
   brightness_le_max sampleHeader _ ⟨_, rfl⟩⟩

/-! ## Off state, successful initialisation, switching on -/

/-- C11: whenever the flag is off, the colour query returns
`CY_RGB_LED_COLOR_OFF` (a 32-bit constant) and the brightness query returns 0,
whatever colour, brightness and polarity are stored; `cy_rgb_led_off` changes
the flag only; and from a reachable state, a `cy_rgb_led_toggle` right after
the off makes both queries report the colour and brightness stored before the
off. -/
theorem off_hides_and_retains (h : Header) (s : Driver)
    (hoff : h.CY_RGB_LED_COLOR_OFF < 2 ^ 32) :
    (∀ (col br : Nat) (lg : Bool),
      cy_rgb_led_get_color h
        { led_color := col, led_brightness := br, rgb_led_state := CY_RGB_LED_OFF,
          rgb_led_active_logic := lg } = h.CY_RGB_LED_COLOR_OFF ∧
      cy_rgb_led_get_brightness
        { led_color := col, led_brightness := br, rgb_led_state := CY_RGB_LED_OFF,
          rgb_led_active_logic := lg } = 0) ∧
    (cy_rgb_led_off s).1 = { s with rgb_led_state := CY_RGB_LED_OFF } ∧
    (Reachable h s →
      cy_rgb_led_get_color h (cy_rgb_led_toggle h (cy_rgb_led_off s).1).1 = s.led_color ∧
      cy_rgb_led_get_brightness (cy_rgb_led_toggle h (cy_rgb_led_off s).1).1
        = s.led_brightness) := by
  refine ⟨?_, rfl, ?_⟩
  · intro col br lg
    simp [cy_rgb_led_get_color, cy_rgb_led_get_brightness, CY_RGB_LED_OFF, u32_of_lt hoff]
  · intro hr
    obtain ⟨hc, hb, hb8⟩ := reachable_ranges h s hr
    simp [cy_rgb_led_get_color, cy_rgb_led_get_brightness, cy_rgb_led_toggle,
      cy_rgb_led_off, cy_rgb_led_on, cy_rgb_led_set_brightness, cy_rgb_led_set_color,
      CY_RGB_LED_ON, CY_RGB_LED_OFF, u32_of_lt hc, clamp_eq_min hb8, Nat.min_eq_left hb]

theorem off_hides_and_retains_witness :
    cy_rgb_led_get_color sampleHeader
        (cy_rgb_led_toggle sampleHeader
          (cy_rgb_led_off (run sampleHeader [Op.on 0x00FF8040 50])).1).1 = 0x00FF8040 ∧
    cy_rgb_led_get_brightness
        (cy_rgb_led_toggle sampleHeader
          (cy_rgb_led_off (run sampleHeader [Op.on 0x00FF8040 50])).1).1 = 50 :=
  (off_hides_and_retains sampleHeader (run sampleHeader [Op.on 0x00FF8040 50])
    (by decide)).2.2 ⟨[Op.on 0x00FF8040 50], rfl⟩

/-- The state, result and calls of `cy_rgb_led_init` on the path where all six
HAL steps succeed. -/
theorem init_eq_of_success (h : Header) (hal : HalResults) (s : Driver)
    (pin_red pin_green pin_blue : Nat) (led_active_logic : Bool)
    (h0 : hal.clock_allocate = h.CY_RSLT_SUCCESS)
    (h1 : hal.clock_set_frequency = h.CY_RSLT_SUCCESS)
    (h2 : hal.clock_set_enabled = h.CY_RSLT_SUCCESS)
    (h3 : hal.pwm_init_red = h.CY_RSLT_SUCCESS)
    (h4 : hal.pwm_init_green = h.CY_RSLT_SUCCESS)
    (h5 : hal.pwm_init_blue = h.CY_RSLT_SUCCESS) :
    cy_rgb_led_init h hal s pin_red pin_green pin_blue led_active_logic =
      (h.CY_RSLT_SUCCESS,
       { s with rgb_led_active_logic := led_active_logic },
       [HalCall.clock_allocate cyhal_clock_block_t.CYHAL_CLOCK_BLOCK_PERIPHERAL_16BIT,
        HalCall.clock_set_frequency 1000000,
        HalCall.clock_set_enabled true true,
        HalCall.pwm_init Channel.red pin_red,
        HalCall.pwm_init Channel.green pin_green,
        HalCall.pwm_init Channel.blue pin_blue,
        HalCall.syspm_register_callback]) := by
  simp [cy_rgb_led_init, cy_rgb_led_register_lp_cb, CY_RGB_LED_TCPWM_CLK_HZ,
    h0, h1, h2, h3, h4, h5]

/-- Calls that are not `q` followed by calls that are not `p`: every `p` call
comes before every `q` call. -/
theorem precedes_append (p q : HalCall → Bool) (pre post : List HalCall)
    (hpre : ∀ c ∈ pre, q c = false) (hpost : ∀ d ∈ post, p d = false) :
    Precedes p q (pre ++ post) := by
  intro i j c d hi hj hp hq
  by_cases hil : i < pre.length
  · by_cases hjl : j < pre.length
    · rw [List.getElem?_append_left hjl] at hj
      have := hpre d (List.getElem?_mem hj)
      rw [hq] at this
      exact absurd this (by simp)
    · omega
  · rw [List.getElem?_append_right (by omega)] at hi
    have := hpost c (List.getElem?_mem hi)
    rw [hp] at this
    exact absurd this (by simp)

/-- C12: when every HAL step succeeds, `cy_rgb_led_init` returns
`CY_RSLT_SUCCESS`, records `led_active_logic` as the polarity and changes no
other variable, and its HAL calls are exactly: allocate a 16-bit peripheral
clock, set its frequency to 1000000 Hz, enable it, init the red PWM on
`pin_red`, the green on `pin_green`, the blue on `pin_blue`, register the
power-mode callback; none of them is a release. -/
theorem init_success (h : Header) (hal : HalResults) (s : Driver)
    (pin_red pin_green pin_blue : Nat) (led_active_logic : Bool)
    (hall : ∀ r ∈ hal.steps, r = h.CY_RSLT_SUCCESS) :
    cy_rgb_led_init h hal s pin_red pin_green pin_blue led_active_logic =
      (h.CY_RSLT_SUCCESS,
       { s with rgb_led_active_logic := led_active_logic },
       [HalCall.clock_allocate cyhal_clock_block_t.CYHAL_CLOCK_BLOCK_PERIPHERAL_16BIT,
        HalCall.clock_set_frequency 1000000,
        HalCall.clock_set_enabled true true,
        HalCall.pwm_init Channel.red pin_red,
        HalCall.pwm_init Channel.green pin_green,
        HalCall.pwm_init Channel.blue pin_blue,
        HalCall.syspm_register_callback]) ∧
    ∀ c ∈ (cy_rgb_led_init h hal s pin_red pin_green pin_blue led_active_logic).2.2,
      c.isRelease = false := by
  have h0 : hal.clock_allocate = h.CY_RSLT_SUCCESS := hall _ (by simp [HalResults.steps])
  have h1 : hal.clock_set_frequency = h.CY_RSLT_SUCCESS :=
    hall _ (by simp [HalResults.steps])
  have h2 : hal.clock_set_enabled = h.CY_RSLT_SUCCESS := hall _ (by simp [HalResults.steps])
  have h3 : hal.pwm_init_red = h.CY_RSLT_SUCCESS := hall _ (by simp [HalResults.steps])
  have h4 : hal.pwm_init_green = h.CY_RSLT_SUCCESS := hall _ (by simp [HalResults.steps])
  have h5 : hal.pwm_init_blue = h.CY_RSLT_SUCCESS := hall _ (by simp [HalResults.steps])
  have heq := init_eq_of_success h hal s pin_red pin_green pin_blue led_active_logic
    h0 h1 h2 h3 h4 h5
  refine ⟨heq, ?_⟩
  rw [heq]
  intro c hc
  simp only [List.mem_cons, List.mem_singleton, List.mem_nil_iff, or_false] at hc
  rcases hc with rfl | rfl | rfl | rfl | rfl | rfl | rfl <;> rfl

theorem init_success_witness :
    (∀ r ∈ allSucceed.steps, r = sampleHeader.CY_RSLT_SUCCESS) ∧
    (cy_rgb_led_init sampleHeader allSucceed (Driver.initial sampleHeader) 11 12 13
        true).2.2 =
      [HalCall.clock_allocate cyhal_clock_block_t.CYHAL_CLOCK_BLOCK_PERIPHERAL_16BIT,
       HalCall.clock_set_frequency 1000000,
       HalCall.clock_set_enabled true true,
       HalCall.pwm_init Channel.red 11,
       HalCall.pwm_init Channel.green 12,
       HalCall.pwm_init Channel.blue 13,
       HalCall.syspm_register_callback] :=
  ⟨by decide,
   congrArg (fun r => r.2.2)
     (init_success sampleHeader allSucceed (Driver.initial sampleHeader) 11 12 13 true
       (by decide)).1⟩

/-- C13: for every 32-bit colour `c` and 8-bit brightness `b`, `cy_rgb_led_on`
sets the flag on, stores `c` and the brightness `min b MAX_BRIGHTNESS`, keeps
the polarity, and issues start red, start green, start blue followed by the
three `cyhal_pwm_set_period` calls `cy_rgb_led_set_color c` makes under
brightness `min b MAX_BRIGHTNESS`. -/
theorem on_state_and_calls (h : Header) (s : Driver) (c b : Nat)
    (hc : c < 2 ^ 32) (hb : b < 2 ^ 8) :
    (cy_rgb_led_on h s c b).1 =
      { led_color := c, led_brightness := min b h.CY_RGB_LED_MAX_BRIGHTNESS,
        rgb_led_state := CY_RGB_LED_ON, rgb_led_active_logic := s.rgb_led_active_logic } ∧
    (cy_rgb_led_on h s c b).2 =
      [HalCall.pwm_start Channel.red, HalCall.pwm_start Channel.green,
       HalCall.pwm_start Channel.blue] ++
      (cy_rgb_led_set_color h
        { s with led_brightness := min b h.CY_RGB_LED_MAX_BRIGHTNESS } c).2 ∧
    (cy_rgb_led_set_color h
        { s with led_brightness := min b h.CY_RGB_LED_MAX_BRIGHTNESS } c).2.length = 3 ∧
    ∀ d ∈ (cy_rgb_led_set_color h
        { s with led_brightness := min b h.CY_RGB_LED_MAX_BRIGHTNESS } c).2,
      d.isSetPeriod = true := by
  refine ⟨?_, ?_, rfl, ?_⟩
  · simp [cy_rgb_led_on, cy_rgb_led_set_brightness, cy_rgb_led_set_color,
      u32_of_lt hc, clamp_eq_min hb]
  · simp [cy_rgb_led_on, cy_rgb_led_set_brightness, cy_rgb_led_set_color,
      u32_of_lt hc, clamp_eq_min hb]
  · intro d hd
    simp only [cy_rgb_led_set_color, List.mem_cons, List.mem_singleton,
      List.mem_nil_iff, or_false] at hd
    rcases hd with rfl | rfl | rfl <;> rfl

theorem on_state_and_calls_witness :
    (cy_rgb_led_on sampleHeader (Driver.initial sampleHeader) 0x00FF8040 200).1 =
      { led_color := 0x00FF8040, led_brightness := 100,
        rgb_led_state := CY_RGB_LED_ON, rgb_led_active_logic := false } :=
  (on_state_and_calls sampleHeader (Driver.initial sampleHeader) 0x00FF8040 200
    (by decide) (by decide)).1

/-- C14 (as the code behaves): in `cy_rgb_led_on c b` the three channels are
started first and the duty cycles for colour `c` and the clamped brightness
are written afterwards: the HAL calls are start red, start green, start blue
followed by the `cyhal_pwm_set_period` calls of `cy_rgb_led_set_color c` under
the clamped brightness, and every `cyhal_pwm_start` call precedes every
`cyhal_pwm_set_period` call. -/
theorem on_starts_before_set_period (h : Header) (s : Driver) (c b : Nat) :
    (cy_rgb_led_on h s c b).2 =
      [HalCall.pwm_start Channel.red, HalCall.pwm_start Channel.green,
       HalCall.pwm_start Channel.blue] ++
      (cy_rgb_led_set_color h
        { s with
          led_brightness :=
            u8 (if b < h.CY_RGB_LED_MAX_BRIGHTNESS then b
                else h.CY_RGB_LED_MAX_BRIGHTNESS) } c).2 ∧
    Precedes HalCall.isStart HalCall.isSetPeriod (cy_rgb_led_on h s c b).2 := by
  have hsplit : (cy_rgb_led_on h s c b).2 =
      [HalCall.pwm_start Channel.red, HalCall.pwm_start Channel.green,
       HalCall.pwm_start Channel.blue] ++
      (cy_rgb_led_set_color h
        { s with
          led_brightness :=
            u8 (if b < h.CY_RGB_LED_MAX_BRIGHTNESS then b
                else h.CY_RGB_LED_MAX_BRIGHTNESS) } c).2 := by
    have hidem : u32 (u32 c) = u32 c := Nat.mod_mod _ _
    simp only [cy_rgb_led_on, cy_rgb_led_set_brightness, cy_rgb_led_set_color, hidem]
  refine ⟨hsplit, ?_⟩
  rw [hsplit]
  apply precedes_append
  · intro d hd
    simp only [List.mem_cons, List.mem_singleton, List.mem_nil_iff, or_false] at hd
    rcases hd with rfl | rfl | rfl <;> rfl
  · intro d hd
    simp only [cy_rgb_led_set_color, List.mem_cons, List.mem_singleton,
      List.mem_nil_iff, or_false] at hd
    rcases hd with rfl | rfl | rfl <;> rfl

/-- C14, the claim as written fails: switching on from the initial state with
colour `0x00FF8040` and brightness 50 issues `cyhal_pwm_start` on red as its
first call and `cyhal_pwm_set_period` on red as its fourth, so it is not the
case that every set_period call precedes every start call. -/
theorem on_set_period_not_before_start :
    (cy_rgb_led_on sampleHeader (Driver.initial sampleHeader) 0x00FF8040 50).2 =
      [HalCall.pwm_start Channel.red, HalCall.pwm_start Channel.green,
       HalCall.pwm_start Channel.blue,
       HalCall.pwm_set_period Channel.red 255 128,
       HalCall.pwm_set_period Channel.green 255 191,
       HalCall.pwm_set_period Channel.blue 255 223] ∧
    ¬ Precedes HalCall.isSetPeriod HalCall.isStart
      (cy_rgb_led_on sampleHeader (Driver.initial sampleHeader) 0x00FF8040 50).2 := by
  refine ⟨by decide, ?_⟩
  intro hprec
  have hlt : 3 < 0 :=
    hprec 3 0 (HalCall.pwm_set_period Channel.red 255 128) (HalCall.pwm_start Channel.red)
      (by decide) (by decide) rfl rfl
  exact absurd hlt (by decide)

/-! ## Setting colour and brightness while off; the initial state; teardown -/

/-- C15: with the flag off, `cy_rgb_led_set_color c` and
`cy_rgb_led_set_brightness b` write the same three duty cycles they would
write with the flag on, through `cyhal_pwm_set_period` calls only (no start,
no stop), and leave the flag off: the colour query still returns
`CY_RGB_LED_COLOR_OFF`, the brightness query 0 and the readiness callback true
for `CYHAL_SYSPM_CHECK_READY`.  A `cy_rgb_led_toggle` afterwards switches the
LED on with colour `c`, respectively brightness `min b MAX_BRIGHTNESS`: it
sets the flag, keeps that colour or brightness stored, and issues start red,
start green, start blue followed by the `cyhal_pwm_set_period` calls for the
stored colour and brightness, which after `set_brightness`, and after
`set_color` from a brightness inside the scale, are the very calls written
while off. -/
theorem set_while_off (h : Header) (s : Driver) (c b state callback_arg : Nat)
    (hflag : s.rgb_led_state = CY_RGB_LED_OFF) (hc : c < 2 ^ 32) (hb : b < 2 ^ 8)
    (hoff : h.CY_RGB_LED_COLOR_OFF < 2 ^ 32) :
    ((cy_rgb_led_set_color h s c).2 =
        (cy_rgb_led_set_color h { s with rgb_led_state := CY_RGB_LED_ON } c).2 ∧
      (cy_rgb_led_set_color h s c).2.length = 3 ∧
      (∀ d ∈ (cy_rgb_led_set_color h s c).2,
        d.isSetPeriod = true ∧ d.isStart = false ∧ d.isStop = false) ∧
      (cy_rgb_led_set_color h s c).1.rgb_led_state = CY_RGB_LED_OFF ∧
      cy_rgb_led_get_color h (cy_rgb_led_set_color h s c).1 = h.CY_RGB_LED_COLOR_OFF ∧
      cy_rgb_led_get_brightness (cy_rgb_led_set_color h s c).1 = 0 ∧
      (cy_rgb_led_lp_readiness (cy_rgb_led_set_color h s c).1 state
        cyhal_syspm_callback_mode_t.CYHAL_SYSPM_CHECK_READY callback_arg).1 = true ∧
      (cy_rgb_led_toggle h (cy_rgb_led_set_color h s c).1).1.rgb_led_state
        = CY_RGB_LED_ON ∧
      cy_rgb_led_get_color h (cy_rgb_led_toggle h (cy_rgb_led_set_color h s c).1).1 = c) ∧
    ((cy_rgb_led_set_brightness h s b).2 =
        (cy_rgb_led_set_brightness h { s with rgb_led_state := CY_RGB_LED_ON } b).2 ∧
      (cy_rgb_led_set_brightness h s b).2.length = 3 ∧
      (∀ d ∈ (cy_rgb_led_set_brightness h s b).2,
        d.isSetPeriod = true ∧ d.isStart = false ∧ d.isStop = false) ∧
      (cy_rgb_led_set_brightness h s b).1.rgb_led_state = CY_RGB_LED_OFF ∧
      cy_rgb_led_get_color h (cy_rgb_led_set_brightness h s b).1
        = h.CY_RGB_LED_COLOR_OFF ∧
      cy_rgb_led_get_brightness (cy_rgb_led_set_brightness h s b).1 = 0 ∧
      (cy_rgb_led_lp_readiness (cy_rgb_led_set_brightness h s b).1 state
        cyhal_syspm_callback_mode_t.CYHAL_SYSPM_CHECK_READY callback_arg).1 = true ∧
      (cy_rgb_led_toggle h (cy_rgb_led_set_brightness h s b).1).1.rgb_led_state
        = CY_RGB_LED_ON ∧
      cy_rgb_led_get_brightness (cy_rgb_led_toggle h (cy_rgb_led_set_brightness h s b).1).1
        = min b h.CY_RGB_LED_MAX_BRIGHTNESS) ∧
    cy_rgb_led_toggle h (cy_rgb_led_set_color h s c).1 =
      ({ led_color := c,
         led_brightness :=
           u8 (if s.led_brightness < h.CY_RGB_LED_MAX_BRIGHTNESS then s.led_brightness
               else h.CY_RGB_LED_MAX_BRIGHTNESS),
         rgb_led_state := CY_RGB_LED_ON,
         rgb_led_active_logic := s.rgb_led_active_logic },
       [HalCall.pwm_start Channel.red, HalCall.pwm_start Channel.green,
        HalCall.pwm_start Channel.blue] ++
       (cy_rgb_led_set_color h
         { s with
           led_brightness :=
             u8 (if s.led_brightness < h.CY_RGB_LED_MAX_BRIGHTNESS then s.led_brightness
                 else h.CY_RGB_LED_MAX_BRIGHTNESS) } c).2) ∧
    (s.led_brightness ≤ h.CY_RGB_LED_MAX_BRIGHTNESS → s.led_brightness < 2 ^ 8 →
      cy_rgb_led_toggle h (cy_rgb_led_set_color h s c).1 =
        ({ s with led_color := c, rgb_led_state := CY_RGB_LED_ON },
         [HalCall.pwm_start Channel.red, HalCall.pwm_start Channel.green,
          HalCall.pwm_start Channel.blue] ++ (cy_rgb_led_set_color h s c).2)) ∧
    cy_rgb_led_toggle h (cy_rgb_led_set_brightness h s b).1 =
      ({ led_color := u32 s.led_color,
         led_brightness := min b h.CY_RGB_LED_MAX_BRIGHTNESS,
         rgb_led_state := CY_RGB_LED_ON,
         rgb_led_active_logic := s.rgb_led_active_logic },
       [HalCall.pwm_start Channel.red, HalCall.pwm_start Channel.green,
        HalCall.pwm_start Channel.blue] ++ (cy_rgb_led_set_brightness h s b).2) ∧
    (s.led_color < 2 ^ 32 →
      cy_rgb_led_toggle h (cy_rgb_led_set_brightness h s b).1 =
        ({ s with led_brightness := min b h.CY_RGB_LED_MAX_BRIGHTNESS,
                  rgb_led_state := CY_RGB_LED_ON },
         [HalCall.pwm_start Channel.red, HalCall.pwm_start Channel.green,
          HalCall.pwm_start Channel.blue] ++ (cy_rgb_led_set_brightness h s b).2)) := by
  obtain ⟨col, br, st, lg⟩ := s
  simp only at hflag
  subst hflag
  have hmin : min (min b h.CY_RGB_LED_MAX_BRIGHTNESS) h.CY_RGB_LED_MAX_BRIGHTNESS
      = min b h.CY_RGB_LED_MAX_BRIGHTNESS := by omega
  have hmin8 : min b h.CY_RGB_LED_MAX_BRIGHTNESS < 2 ^ 8 := by omega
  have hre : u8 (if b < h.CY_RGB_LED_MAX_BRIGHTNESS then min b h.CY_RGB_LED_MAX_BRIGHTNESS
      else h.CY_RGB_LED_MAX_BRIGHTNESS) = min b h.CY_RGB_LED_MAX_BRIGHTNESS := by
    unfold u8
    split <;> omega
  have hidem : ∀ n, u32 (u32 n) = u32 n := fun n => Nat.mod_mod _ _
  have htog1 : cy_rgb_led_toggle h (cy_rgb_led_set_color h
      { led_color := col, led_brightness := br, rgb_led_state := CY_RGB_LED_OFF,
        rgb_led_active_logic := lg } c).1 =
      ({ led_color := c,
         led_brightness :=
           u8 (if br < h.CY_RGB_LED_MAX_BRIGHTNESS then br
               else h.CY_RGB_LED_MAX_BRIGHTNESS),
         rgb_led_state := CY_RGB_LED_ON,
         rgb_led_active_logic := lg },
       [HalCall.pwm_start Channel.red, HalCall.pwm_start Channel.green,
        HalCall.pwm_start Channel.blue] ++
       (cy_rgb_led_set_color h
         { led_color := col,
           led_brightness :=
             u8 (if br < h.CY_RGB_LED_MAX_BRIGHTNESS then br
                 else h.CY_RGB_LED_MAX_BRIGHTNESS),
           rgb_led_state := CY_RGB_LED_OFF,
           rgb_led_active_logic := lg } c).2) := by
    simp only [cy_rgb_led_toggle, cy_rgb_led_on, cy_rgb_led_set_brightness,
      cy_rgb_led_set_color, if_true, u32_of_lt hc]
  have htog2 : cy_rgb_led_toggle h (cy_rgb_led_set_brightness h
      { led_color := col, led_brightness := br, rgb_led_state := CY_RGB_LED_OFF,
        rgb_led_active_logic := lg } b).1 =
      ({ led_color := u32 col,
         led_brightness := min b h.CY_RGB_LED_MAX_BRIGHTNESS,
         rgb_led_state := CY_RGB_LED_ON,
         rgb_led_active_logic := lg },
       [HalCall.pwm_start Channel.red, HalCall.pwm_start Channel.green,
        HalCall.pwm_start Channel.blue] ++
       (cy_rgb_led_set_brightness h
         { led_color := col, led_brightness := br, rgb_led_state := CY_RGB_LED_OFF,
           rgb_led_active_logic := lg } b).2) := by
    simp only [cy_rgb_led_toggle, cy_rgb_led_on, cy_rgb_led_set_brightness,
      cy_rgb_led_set_color, if_true, hidem, clamp_eq_min hb, clamp_eq_min hmin8, hmin]
  refine ⟨⟨rfl, rfl, ?_, rfl, ?_, ?_, ?_, ?_, ?_⟩, ⟨rfl, rfl, ?_, rfl, ?_, ?_, ?_, ?_, ?_⟩,
    htog1, ?_, htog2, ?_⟩
  · intro d hd
    simp only [cy_rgb_led_set_color, List.mem_cons, List.mem_singleton,
      List.mem_nil_iff, or_false] at hd
    rcases hd with rfl | rfl | rfl <;> exact ⟨rfl, rfl, rfl⟩
  · simp [cy_rgb_led_get_color, cy_rgb_led_set_color, CY_RGB_LED_OFF, u32_of_lt hoff]
  · simp [cy_rgb_led_get_brightness, cy_rgb_led_set_color, CY_RGB_LED_OFF]
  · simp [cy_rgb_led_lp_readiness, cy_rgb_led_set_color, CY_RGB_LED_OFF]
  · simp [cy_rgb_led_toggle, cy_rgb_led_on, cy_rgb_led_set_brightness,
      cy_rgb_led_set_color, CY_RGB_LED_OFF, CY_RGB_LED_ON]
  · simp [cy_rgb_led_get_color, cy_rgb_led_toggle, cy_rgb_led_on,
      cy_rgb_led_set_brightness, cy_rgb_led_set_color, CY_RGB_LED_OFF, CY_RGB_LED_ON,
      u32_of_lt hc]
  · intro d hd
    simp only [cy_rgb_led_set_brightness, cy_rgb_led_set_color, List.mem_cons,
      List.mem_singleton, List.mem_nil_iff, or_false] at hd
    rcases hd with rfl | rfl | rfl <;> exact ⟨rfl, rfl, rfl⟩
  · simp [cy_rgb_led_get_color, cy_rgb_led_set_brightness, cy_rgb_led_set_color,
      CY_RGB_LED_OFF, u32_of_lt hoff]
  · simp [cy_rgb_led_get_brightness, cy_rgb_led_set_brightness, cy_rgb_led_set_color,
      CY_RGB_LED_OFF]
  · simp [cy_rgb_led_lp_readiness, cy_rgb_led_set_brightness, cy_rgb_led_set_color,
      CY_RGB_LED_OFF]
  · simp [cy_rgb_led_toggle, cy_rgb_led_on, cy_rgb_led_set_brightness,
      cy_rgb_led_set_color, CY_RGB_LED_OFF, CY_RGB_LED_ON]
  · simp [cy_rgb_led_get_brightness, cy_rgb_led_toggle, cy_rgb_led_on,
      cy_rgb_led_set_brightness, cy_rgb_led_set_color, CY_RGB_LED_OFF, CY_RGB_LED_ON,
      clamp_eq_min hb, clamp_eq_min hmin8, hmin, hre]
  · intro hbs hbs8
    rw [htog1]
    simp only [clamp_eq_min hbs8, Nat.min_eq_left hbs]
  · intro hcol
    rw [htog2]
    simp only [u32_of_lt hcol]

theorem set_while_off_witness :
    (Driver.initial sampleHeader).rgb_led_state = CY_RGB_LED_OFF ∧
    cy_rgb_led_get_color sampleHeader
      (cy_rgb_led_toggle sampleHeader
        (cy_rgb_led_set_color sampleHeader (Driver.initial sampleHeader) 0x00FF8040).1).1
      = 0x00FF8040 ∧
    cy_rgb_led_get_brightness
      (cy_rgb_led_toggle sampleHeader
        (cy_rgb_led_set_brightness sampleHeader (Driver.initial sampleHeader) 200).1).1
      = 100 ∧
    cy_rgb_led_toggle sampleHeader
        (cy_rgb_led_set_brightness sampleHeader (Driver.initial sampleHeader) 200).1 =
      ({ led_color := 0, led_brightness := 100, rgb_led_state := CY_RGB_LED_ON,
         rgb_led_active_logic := false },
       [HalCall.pwm_start Channel.red, HalCall.pwm_start Channel.green,
        HalCall.pwm_start Channel.blue,
        HalCall.pwm_set_period Channel.red 255 255,
        HalCall.pwm_set_period Channel.green 255 255,
        HalCall.pwm_set_period Channel.blue 255 255]) :=
  ⟨rfl,
   (set_while_off sampleHeader (Driver.initial sampleHeader) 0x00FF8040 200 0 0 rfl
      (by decide) (by decide) (by decide)).1.2.2.2.2.2.2.2.2,
   (set_while_off sampleHeader (Driver.initial sampleHeader) 0x00FF8040 200 0 0 rfl
      (by decide) (by decide) (by decide)).2.1.2.2.2.2.2.2.2.2,
   (set_while_off sampleHeader (Driver.initial sampleHeader) 0x00FF8040 200 0 0 rfl
      (by decide) (by decide) (by decide)).2.2.2.2.1⟩

/-- C16: in the state given by the static initialisers, which is the state
after the empty call sequence, the flag is off, the stored brightness is 0 and
the stored colour is `CY_RGB_LED_COLOR_OFF` (a 32-bit constant); the colour
query returns that constant, the brightness query returns 0 and the readiness
callback returns true for `CYHAL_SYSPM_CHECK_READY`. -/
theorem initial_state (h : Header) (state callback_arg : Nat)
    (hoff : h.CY_RGB_LED_COLOR_OFF < 2 ^ 32) :
    run h [] = Driver.initial h ∧
    (Driver.initial h).rgb_led_state = CY_RGB_LED_OFF ∧
    (Driver.initial h).led_brightness = 0 ∧
    (Driver.initial h).led_color = h.CY_RGB_LED_COLOR_OFF ∧
    cy_rgb_led_get_color h (Driver.initial h) = h.CY_RGB_LED_COLOR_OFF ∧
    cy_rgb_led_get_brightness (Driver.initial h) = 0 ∧
    (cy_rgb_led_lp_readiness (Driver.initial h) state
      cyhal_syspm_callback_mode_t.CYHAL_SYSPM_CHECK_READY callback_arg).1 = true := by
  refine ⟨rfl, rfl, rfl, ?_, ?_, ?_, ?_⟩
  · simp [Driver.initial, u32_of_lt hoff]
  · simp [cy_rgb_led_get_color, Driver.initial, CY_RGB_LED_OFF, u32_of_lt hoff]
  · simp [cy_rgb_led_get_brightness, Driver.initial]
  · simp [cy_rgb_led_lp_readiness, Driver.initial, CY_RGB_LED_OFF]

theorem initial_state_witness :
    (Driver.initial sampleHeader).led_color = 0 ∧
    cy_rgb_led_get_color sampleHeader (Driver.initial sampleHeader) = 0 :=
  ⟨(initial_state sampleHeader 0 0 (by decide)).2.2.2.1,
   (initial_state sampleHeader 0 0 (by decide)).2.2.2.2.1⟩

/-- C17: `cy_rgb_led_deinit` issues, from any state and without changing it,
free red, free green, free blue, disable clock, free clock, unregister
callback, in that order.  After a fully successful `cy_rgb_led_init` the
combined calls of init and deinit acquire and release each resource exactly
once: the clock is allocated, enabled, disabled and freed once, each PWM
channel is initialised and freed once, the callback is registered and
unregistered once. -/
theorem deinit_releases_all (h : Header) (hal : HalResults) (s : Driver)
    (pin_red pin_green pin_blue : Nat) (led_active_logic : Bool)
    (hall : ∀ r ∈ hal.steps, r = h.CY_RSLT_SUCCESS) :
    (∀ s0 : Driver, cy_rgb_led_deinit s0 =
      (s0, [HalCall.pwm_free Channel.red, HalCall.pwm_free Channel.green,
            HalCall.pwm_free Channel.blue, HalCall.clock_set_enabled false true,
            HalCall.clock_free, HalCall.syspm_unregister_callback])) ∧
    (cy_rgb_led_init h hal s pin_red pin_green pin_blue led_active_logic).2.2 ++
      (cy_rgb_led_deinit
        (cy_rgb_led_init h hal s pin_red pin_green pin_blue led_active_logic).2.1).2 =
      [HalCall.clock_allocate cyhal_clock_block_t.CYHAL_CLOCK_BLOCK_PERIPHERAL_16BIT,
       HalCall.clock_set_frequency 1000000,
       HalCall.clock_set_enabled true true,
       HalCall.pwm_init Channel.red pin_red,
       HalCall.pwm_init Channel.green pin_green,
       HalCall.pwm_init Channel.blue pin_blue,
       HalCall.syspm_register_callback,
       HalCall.pwm_free Channel.red, HalCall.pwm_free Channel.green,
       HalCall.pwm_free Channel.blue, HalCall.clock_set_enabled false true,
       HalCall.clock_free, HalCall.syspm_unregister_callback] ∧
    (∀ ch : Channel,
      ((cy_rgb_led_init h hal s pin_red pin_green pin_blue led_active_logic).2.2 ++
        (cy_rgb_led_deinit
          (cy_rgb_led_init h hal s pin_red pin_green pin_blue led_active_logic).2.1).2).countP
          (HalCall.isPwmInit ch) = 1 ∧
      ((cy_rgb_led_init h hal s pin_red pin_green pin_blue led_active_logic).2.2 ++
        (cy_rgb_led_deinit
          (cy_rgb_led_init h hal s pin_red pin_green pin_blue led_active_logic).2.1).2).count
          (HalCall.pwm_free ch) = 1) ∧
    (∀ c ∈ [HalCall.clock_allocate cyhal_clock_block_t.CYHAL_CLOCK_BLOCK_PERIPHERAL_16BIT,
            HalCall.clock_set_enabled true true, HalCall.clock_set_enabled false true,
            HalCall.clock_free, HalCall.syspm_register_callback,
            HalCall.syspm_unregister_callback],
      ((cy_rgb_led_init h hal s pin_red pin_green pin_blue led_active_logic).2.2 ++
        (cy_rgb_led_deinit
          (cy_rgb_led_init h hal s pin_red pin_green pin_blue led_active_logic).2.1).2).count
          c = 1) := by
  have h0 : hal.clock_allocate = h.CY_RSLT_SUCCESS := hall _ (by simp [HalResults.steps])
  have h1 : hal.clock_set_frequency = h.CY_RSLT_SUCCESS :=
    hall _ (by simp [HalResults.steps])
  have h2 : hal.clock_set_enabled = h.CY_RSLT_SUCCESS := hall _ (by simp [HalResults.steps])
  have h3 : hal.pwm_init_red = h.CY_RSLT_SUCCESS := hall _ (by simp [HalResults.steps])
  have h4 : hal.pwm_init_green = h.CY_RSLT_SUCCESS := hall _ (by simp [HalResults.steps])
  have h5 : hal.pwm_init_blue = h.CY_RSLT_SUCCESS := hall _ (by simp [HalResults.steps])
  rw [init_eq_of_success h hal s pin_red pin_green pin_blue led_active_logic
    h0 h1 h2 h3 h4 h5]
  refine ⟨fun _ => rfl, rfl, ?_, ?_⟩
  · intro ch
    cases ch <;>
      simp [cy_rgb_led_deinit, List.count_cons, List.countP_cons, HalCall.isPwmInit]
  · intro c hc
    simp only [List.mem_cons, List.mem_singleton, List.mem_nil_iff, or_false] at hc
    rcases hc with rfl | rfl | rfl | rfl | rfl | rfl <;>
      simp [cy_rgb_led_deinit, List.count_cons]

theorem deinit_releases_all_witness :
    (∀ r ∈ allSucceed.steps, r = sampleHeader.CY_RSLT_SUCCESS) ∧
    ((cy_rgb_led_init sampleHeader allSucceed (Driver.initial sampleHeader) 11 12 13
        true).2.2 ++
      (cy_rgb_led_deinit
        (cy_rgb_led_init sampleHeader allSucceed (Driver.initial sampleHeader) 11 12 13
          true).2.1).2).count HalCall.clock_free = 1 :=
  ⟨by decide,
   (deinit_releases_all sampleHeader allSucceed (Driver.initial sampleHeader) 11 12 13
      true (by decide)).2.2.2 HalCall.clock_free (by decide)⟩

/-! ## Range of the pulse widths -/

/-- The requirement read on the code: for an active-high state whose stored
32-bit colour has red component 255, `cy_rgb_led_set_brightness 255` writes
pulse width 255 to the red channel exactly when the header meets the spec. -/
theorem meetsDutyCycleSpec_iff_code (h : Header) (s : Driver) (hpol : s.activeHigh h)
    (hc : s.led_color < 2 ^ 32)
    (hred : channel_value h s.led_color Channel.red = 255) :
    HalCall.pwm_set_period Channel.red 255 255 ∈ (cy_rgb_led_set_brightness h s 255).2 ↔
      h.meetsDutyCycleSpec := by
  have hne : ¬ s.rgb_led_active_logic = h.CY_RGB_LED_ACTIVE_LOW := hpol
  have hred2 : u8 (s.led_color >>> h.CY_RGB_LED_RED_POS) = 255 := hred
  have hmin8 : min 255 h.CY_RGB_LED_MAX_BRIGHTNESS < 2 ^ 8 := by omega
  have hfit : u32 (min 255 h.CY_RGB_LED_MAX_BRIGHTNESS * 255
      / h.CY_RGB_LED_MAX_BRIGHTNESS) =
      min 255 h.CY_RGB_LED_MAX_BRIGHTNESS * 255 / h.CY_RGB_LED_MAX_BRIGHTNESS := by
    have := scaled_lt_of_u8 hmin8 255 h.CY_RGB_LED_MAX_BRIGHTNESS
    have h255 : u8 255 = 255 := rfl
    rw [h255] at this
    exact u32_of_lt this
  simp only [cy_rgb_led_set_brightness, cy_rgb_led_set_color, hne, if_false,
    clamp_eq_min (show (255 : Nat) < 2 ^ 8 by norm_num), u32_of_lt hc, hred2, hfit,
    CY_RGB_LED_PWM_PERIOD_US, List.mem_cons, List.mem_singleton,
    HalCall.pwm_set_period.injEq, List.mem_nil_iff, or_false, reduceCtorEq, false_and,
    true_and, Header.meetsDutyCycleSpec]
  constructor
  · intro hmem
    exact hmem.symm
  · intro hspec
    exact hspec.symm

/-- A channel byte that lies inside the low 24 bits is fixed by those bits. -/
theorem byte_of_low24 (p c1 c2 : Nat) (hp : p + 8 ≤ 24)
    (hlow : c1 % 2 ^ 24 = c2 % 2 ^ 24) : u8 (c1 >>> p) = u8 (c2 >>> p) := by
  have hdvd : 2 ^ p * 2 ^ 8 ∣ 2 ^ 24 := by
    rw [← Nat.pow_add]
    exact Nat.pow_dvd_pow 2 hp
  have key : ∀ c : Nat, u8 (c >>> p) = c % 2 ^ 24 % (2 ^ p * 2 ^ 8) / 2 ^ p := by
    intro c
    unfold u8
    rw [Nat.shiftRight_eq_div_pow, Nat.mod_mod_of_dvd c hdvd, Nat.mod_mul_right_div_self]
  rw [key c1, key c2, hlow]

/-- The single `cyhal_pwm_set_period` call `cy_rgb_led_set_color` makes on a
channel, read off the call list. -/
theorem set_color_calls_on (h : Header) (s : Driver) (c : Nat) (ch : Channel) :
    (cy_rgb_led_set_color h s c).2.filter (HalCall.isSetPeriodOn ch) =
      [HalCall.pwm_set_period ch CY_RGB_LED_PWM_PERIOD_US
        (if s.rgb_led_active_logic = h.CY_RGB_LED_ACTIVE_LOW then
          sub32 CY_RGB_LED_PWM_PERIOD_US
            (u32 (s.led_brightness * channel_value h (u32 c) ch
              / h.CY_RGB_LED_MAX_BRIGHTNESS))
         else u32 (s.led_brightness * channel_value h (u32 c) ch
              / h.CY_RGB_LED_MAX_BRIGHTNESS))] := by
  cases ch <;>
    simp [cy_rgb_led_set_color, List.filter, HalCall.isSetPeriodOn, channel_value,
      Channel.pos]

/-- C19: the `cyhal_pwm_set_period` call `cy_rgb_led_set_color` makes on a
channel is fixed by the stored brightness, the polarity and that channel's own
8-bit component: two states with equal brightness and polarity and two 32-bit
colours with equal component on a channel give the same call on that channel;
and, the three channel fields lying inside bits 0 to 23, two colours that
differ only in bits 24 to 31 give identical call lists. -/
theorem pulse_depends_on_own_byte (h : Header) (s1 s2 : Driver) (c1 c2 : Nat)
    (hc1 : c1 < 2 ^ 32) (hc2 : c2 < 2 ^ 32)
    (hbr : s1.led_brightness = s2.led_brightness)
    (hpol : s1.rgb_led_active_logic = s2.rgb_led_active_logic) :
    (∀ ch : Channel, channel_value h c1 ch = channel_value h c2 ch →
      (cy_rgb_led_set_color h s1 c1).2.filter (HalCall.isSetPeriodOn ch) =
        (cy_rgb_led_set_color h s2 c2).2.filter (HalCall.isSetPeriodOn ch)) ∧
    (h.CY_RGB_LED_RED_POS + 8 ≤ 24 → h.CY_RGB_LED_GREEN_POS + 8 ≤ 24 →
      h.CY_RGB_LED_BLUE_POS + 8 ≤ 24 → c1 % 2 ^ 24 = c2 % 2 ^ 24 →
      (cy_rgb_led_set_color h s1 c1).2 = (cy_rgb_led_set_color h s2 c2).2) := by
  refine ⟨?_, ?_⟩
  · intro ch hch
    rw [set_color_calls_on, set_color_calls_on, u32_of_lt hc1, u32_of_lt hc2, hch, hbr,
      hpol]
  · intro hr hg hb hlow
    simp only [cy_rgb_led_set_color, u32_of_lt hc1, u32_of_lt hc2, hbr, hpol,
      byte_of_low24 _ c1 c2 hr hlow, byte_of_low24 _ c1 c2 hg hlow,
      byte_of_low24 _ c1 c2 hb hlow]

theorem pulse_depends_on_own_byte_witness :
    (0xAB00FF80 : Nat) % 2 ^ 24 = 0x1200FF80 % 2 ^ 24 ∧
    (cy_rgb_led_set_color sampleHeader sampleOn 0xAB00FF80).2 =
      (cy_rgb_led_set_color sampleHeader sampleOn 0x1200FF80).2 ∧
    (cy_rgb_led_set_color sampleHeader sampleOn 0xAB00FF80).2 =
      [HalCall.pwm_set_period Channel.red 255 0,
       HalCall.pwm_set_period Channel.green 255 127,
       HalCall.pwm_set_period Channel.blue 255 64] :=
  ⟨by decide,
   (pulse_depends_on_own_byte sampleHeader sampleOn sampleOn 0xAB00FF80 0x1200FF80
      (by decide) (by decide) rfl rfl).2 (by decide) (by decide) (by decide) (by decide),
   by decide⟩

/-- C20: in a state whose stored colour is a 32-bit value,
`cy_rgb_led_set_color c` changes the stored colour only (to the 32-bit `c`) and
`cy_rgb_led_set_brightness b` changes the stored brightness only (to
`min b MAX_BRIGHTNESS`, for 8-bit `b`); brightness, flag and polarity,
respectively colour, flag and polarity, stay as they were.  Hence while on,
the colour query after `set_color c` returns `c` and the brightness query is
unchanged, and the colour query after `set_brightness b` is unchanged. -/
theorem set_color_set_brightness_frame (h : Header) (s : Driver) (c b : Nat)
    (hc : c < 2 ^ 32) (hb : b < 2 ^ 8) (hs : s.led_color < 2 ^ 32) :
    (cy_rgb_led_set_color h s c).1 = { s with led_color := c } ∧
    (cy_rgb_led_set_brightness h s b).1 =
      { s with led_brightness := min b h.CY_RGB_LED_MAX_BRIGHTNESS } ∧
    (s.rgb_led_state = CY_RGB_LED_ON →
      cy_rgb_led_get_color h (cy_rgb_led_set_color h s c).1 = c ∧
      cy_rgb_led_get_brightness (cy_rgb_led_set_color h s c).1
        = cy_rgb_led_get_brightness s ∧
      cy_rgb_led_get_color h (cy_rgb_led_set_brightness h s b).1
        = cy_rgb_led_get_color h s) := by
  have hcol : (cy_rgb_led_set_color h s c).1 = { s with led_color := c } := by
    simp only [cy_rgb_led_set_color, u32_of_lt hc]
  have hbri : (cy_rgb_led_set_brightness h s b).1 =
      { s with led_brightness := min b h.CY_RGB_LED_MAX_BRIGHTNESS } := by
    simp only [cy_rgb_led_set_brightness, cy_rgb_led_set_color, u32_of_lt hs,
      clamp_eq_min hb]
  refine ⟨hcol, hbri, ?_⟩
  intro hon
  rw [hcol, hbri]
  simp [cy_rgb_led_get_color, cy_rgb_led_get_brightness, hon, CY_RGB_LED_ON,
    CY_RGB_LED_OFF]

theorem set_color_set_brightness_frame_witness :
    (cy_rgb_led_set_color sampleHeader sampleOn 0x00123456).1 =
      { sampleOn with led_color := 0x00123456 } ∧
    (cy_rgb_led_set_brightness sampleHeader sampleOn 200).1 =
      { sampleOn with led_brightness := 100 } :=
  ⟨(set_color_set_brightness_frame sampleHeader sampleOn 0x00123456 200
      (by decide) (by decide) (by decide)).1,
   (set_color_set_brightness_frame sampleHeader sampleOn 0x00123456 200
      (by decide) (by decide) (by decide)).2.1⟩

end RgbLed
